import Mathlib

/-!
Shallow embedding of the `pkg/ioc` dependency-injection container
(`containerImpl` in container.go) and proofs about the claims of the
specification.

Modelling conventions, chosen to mirror the Go source faithfully:

* Go `reflect.Type` is modelled by `GoType`.  Struct types are named, as
  in Go, and their metadata (interface list, fields) lives in an
  immutable type table carried by the state (`CState.types`) — the
  model of the program's compile-time type declarations.  A struct's
  interface list names the interfaces that a *pointer to it* implements
  (pointer-receiver method sets, the convention used throughout the
  repository's examples).  A field carries its name, type, the raw
  value of its `inject` struct tag (`""` both when the tag is absent
  and when it is empty — exactly what Go's `reflect.StructTag.Get`
  returns), the raw value of its `optional` tag, and whether the field
  is exported (reflect's `CanSet` on an addressable struct).
* Go interface values (`interface{}`) are modelled by `GoVal`: the nil
  interface, a pointer into an explicit heap, or an opaque non-pointer
  value carrying its dynamic type.  Reference equality of instances is
  equality of heap addresses.
* The heap is an association list from addresses to objects; struct
  objects carry their type and named field values.  Mutation of a
  struct field through a pointer is an update of the heap entry.
* Go maps (`beans`, `typeRegistry`, `initializing`) are association
  lists in insertion order; Go map iteration order is unspecified, this
  embedding fixes it to insertion order (a determinisation; no claim
  depends on the order).  `typeRegistry` holds, in place of the shared
  `*BeanDefinition` pointer of the source, the key of the same
  definition in `beans`; every write to `typeRegistry` in the source
  stores a pointer that is simultaneously stored in `beans` under that
  key, so reading through `beans` models the pointer aliasing exactly.
* `sync.RWMutex` operations are not modelled (single-threaded
  semantics); panics of the Go runtime (e.g. `reflect.Type.Elem` on a
  non-pointer type) are modelled by the `Outcome.panicked` result.
* User callbacks — factories and `PostConstruct` hooks — are modelled
  by small executable behaviour descriptions (`FactorySpec`, `Hook`)
  interpreted against the state; a hook may record its invocation by
  marking a field of its object, which is how a Go test would observe
  that `PostConstruct` ran.
* Error values are the `fmt.Errorf`/`errors.New` message strings of the
  source (single quotes around interpolated names elided).
* The mutual recursion `GetSafe` → `createPrototypeInstance` → `Inject`
  → `GetSafe` is bounded by explicit fuel (Go would consume stack);
  running out of fuel is the distinguished `Outcome.fuelOut` result.
-/

namespace Ioc

/-- Scope constant `Singleton` (`type Scope = int`). -/
def Singleton : Nat := 0

/-- Scope constant `Prototype`. -/
def Prototype : Nat := 1

/-- Phase constant `NotInitialized`. -/
def NotInitializedPhase : Nat := 0

/-- Phase constant `InjectionPhase`. -/
def InjectionPhase : Nat := 1

/-- Phase constant `PostConstructPhase`. -/
def PostConstructPhase : Nat := 2

/-- Phase constant `Initialized`. -/
def InitializedPhase : Nat := 3

/-- Model of `reflect.Type`.  Struct and interface types are referred
to by their full Go name (e.g. `"impl.ProductServiceImpl"`); struct
metadata lives in the type table (`CState.types`). -/
inductive GoType : Type where
  | ptrTo (elem : GoType)
  | structT (name : String)
  | ifaceT (name : String)
  | basic (name : String)
deriving DecidableEq

/-- A struct field: name, type, `inject` tag, `optional` tag, exported. -/
structure GoField : Type where
  fname : String
  fty : GoType
  injectTag : String
  optionalTag : String
  exported : Bool
deriving DecidableEq

/-- Compile-time metadata of a named struct type: the interfaces its
pointer type implements, and its declared fields. -/
structure StructInfo : Type where
  ifaces : List String
  fields : List GoField
deriving DecidableEq

/-- `reflect.Type.String()`. -/
def GoType.str : GoType → String
  | .ptrTo e => "*" ++ e.str
  | .structT n => n
  | .ifaceT n => n
  | .basic n => n

/-- `reflect.Type.Elem()`: defined for pointer types, a runtime panic
otherwise (`none`). -/
def GoType.elem? : GoType → Option GoType
  | .ptrTo e => some e
  | _ => none

/-- Whether the type's kind is `reflect.Struct`. -/
def GoType.isStruct : GoType → Bool
  | .structT _ => true
  | _ => false

/-- Whether the type's kind is `reflect.Interface`. -/
def GoType.isIface : GoType → Bool
  | .ifaceT _ => true
  | _ => false

/-- Kind name, used in the `can only inject into struct, got %s` message. -/
def GoType.kindName : GoType → String
  | .ptrTo _ => "ptr"
  | .structT _ => "struct"
  | .ifaceT _ => "interface"
  | .basic n => n

/-- Model of a Go `interface{}` value: the nil interface, a pointer
into the heap (carrying the pointee type), or an opaque non-pointer
value of a given dynamic type. -/
inductive GoVal : Type where
  | vnil
  | vptr (pointee : GoType) (addr : Nat)
  | vval (ty : GoType)
deriving DecidableEq

/-- `reflect.TypeOf` of an interface value (`none` for the nil
interface, where Go returns a nil `reflect.Type`). -/
def GoVal.typeOf : GoVal → Option GoType
  | .vnil => none
  | .vptr t _ => some (.ptrTo t)
  | .vval t => some t

/-- A heap object: its type and its named field values. -/
structure HObj : Type where
  ty : GoType
  flds : List (String × GoVal)
deriving DecidableEq

/-- Result of an operation: a value, a Go `error`, a Go runtime panic,
or exhaustion of the recursion fuel (stack). -/
inductive Outcome (α : Type) : Type where
  | ok (a : α)
  | err (msg : String)
  | panicked (msg : String)
  | fuelOut
deriving DecidableEq

/-- Whether an outcome is a normal Go return (a value or an `error`),
as opposed to a panic or stack exhaustion. -/
def Outcome.isNormal : Outcome α → Bool
  | .ok _ => true
  | .err _ => true
  | _ => false

/-- Transport a non-`ok` outcome to another result type. -/
def Outcome.castFail : Outcome α → Outcome β
  | .ok _ => .panicked "model: castFail of ok"
  | .err m => .err m
  | .panicked m => .panicked m
  | .fuelOut => .fuelOut

/-- Behaviour of a registered factory function
(`func() (interface{}, error)`): return a pointer to a freshly
allocated zero struct (`return &T{}, nil`), return a fixed
pre-existing value (a caching factory), or fail. -/
inductive FactorySpec : Type where
  | freshOf (t : GoType)
  | constV (v : GoVal)
  | ffail (msg : String)
deriving DecidableEq

/-- Behaviour of a `PostConstruct` hook, keyed by struct type name:
record the invocation by marking a field, return an error, or do
nothing observable. -/
inductive Hook : Type where
  | marks (field : String)
  | hfails (msg : String)
  | silent
deriving DecidableEq

/-- Marker value written by a `Hook.marks` hook. -/
def markerVal : GoVal := .vval (.basic "postConstruct.ran")

/-- The model of `BeanDefinition` (`Ty` models the `Type` field; the
unused `IsInterface` field is omitted; `inited` models the
`initialized` progress flag). -/
structure BeanDef : Type where
  Name : String
  TypeName : String
  Ty : Option GoType
  Instance : GoVal
  Scope : Nat
  Factory : Option FactorySpec
  injected : Bool
  inited : Bool
deriving DecidableEq

/-- The model of `containerImpl` plus the heap and the immutable
program environment: the type table (`types`) and the `PostConstruct`
behaviours (`hooks`).  `inited` models the `initialized` flag. -/
structure CState : Type where
  beans : List (String × BeanDef)
  typeRegistry : List (String × List (String × String))
  inited : Bool
  initializing : List String
  currentPhase : Nat
  heap : List (Nat × HObj)
  nextAddr : Nat
  types : List (String × StructInfo)
  hooks : List (String × Hook)
deriving DecidableEq

/-- Association-list lookup (Go map read); keys are unique by
construction. -/
def lookupA {β : Type} (k : String) : List (String × β) → Option β
  | [] => none
  | (k2, v) :: rest => if k2 = k then some v else lookupA k rest

/-- Association-list in-place update (Go mutation through a map-held
pointer); no-op when the key is absent. -/
def updateA {β : Type} (k : String) (f : β → β) : List (String × β) → List (String × β)
  | [] => []
  | (k2, v) :: rest => if k2 = k then (k2, f v) :: rest else (k2, v) :: updateA k f rest

/-- Go map assignment `m[k] = v`: replaces an existing binding in
place, otherwise appends the new one. -/
def insertA {β : Type} (k : String) (v : β) : List (String × β) → List (String × β)
  | [] => [(k, v)]
  | (k2, w) :: rest => if k2 = k then (k2, v) :: rest else (k2, w) :: insertA k v rest

/-- Heap lookup. -/
def lookupH (a : Nat) : List (Nat × HObj) → Option HObj
  | [] => none
  | (a2, o) :: rest => if a2 = a then some o else lookupH a rest

/-- Heap update of an existing object. -/
def updateH (a : Nat) (f : HObj → HObj) : List (Nat × HObj) → List (Nat × HObj)
  | [] => []
  | (a2, o) :: rest => if a2 = a then (a2, f o) :: rest else (a2, o) :: updateH a f rest

/-- Struct metadata of a type, per the type table (`none` for
non-structs and undeclared names). -/
def structInfoOf (s : CState) : GoType → Option StructInfo
  | .structT n => lookupA n s.types
  | _ => none

/-- `t.Implements(i)` for an interface named `i`: a pointer to a
struct implements the interfaces of the struct's declared interface
list; an interface type implements itself. -/
def implementsI (s : CState) (t : GoType) (i : String) : Bool :=
  match t with
  | .ptrTo (.structT n) =>
    match lookupA n s.types with
    | some si => si.ifaces.contains i
    | none => false
  | .ifaceT n => n == i
  | _ => false

/-- Declared fields of a type (empty for non-structs). -/
def fieldsOf (s : CState) (t : GoType) : List GoField :=
  match structInfoOf s t with
  | some si => si.fields
  | none => []

/-- Zero value of a type: nil for pointers and interfaces, an opaque
value otherwise. -/
def zeroVal (t : GoType) : GoVal :=
  match t with
  | .ptrTo _ => .vnil
  | .ifaceT _ => .vnil
  | _ => .vval t

/-- Zero object of a type (field-wise zero for structs). -/
def zeroObj (s : CState) (t : GoType) : HObj :=
  ⟨t, (fieldsOf s t).map (fun f => (f.fname, zeroVal f.fty))⟩

/-- Allocate a fresh zero object of type `t` and return a pointer to
it (Go `&T{}` / `reflect.New(T).Interface()`). -/
def allocZero (t : GoType) (s : CState) : GoVal × CState :=
  (.vptr t s.nextAddr,
   { s with heap := s.heap ++ [(s.nextAddr, zeroObj s t)], nextAddr := s.nextAddr + 1 })

/-- Set a named field of the heap object at `a`. -/
def setField (a : Nat) (f : String) (v : GoVal) (s : CState) : CState :=
  { s with heap := updateH a (fun o => ⟨o.ty, updateA f (fun _ => v) o.flds⟩) s.heap }

/-- Read a named field of the heap object at `a`. -/
def getField (a : Nat) (f : String) (s : CState) : Option GoVal :=
  match lookupH a s.heap with
  | none => none
  | some o => lookupA f o.flds

/-- `NewContainer()` (the logger is not modelled); `types` and `hooks`
are the immutable environment of the program under test. -/
def NewContainer (types : List (String × StructInfo)) (hooks : List (String × Hook)) :
    CState :=
  { beans := [], typeRegistry := [], inited := false, initializing := [],
    currentPhase := NotInitializedPhase, heap := [], nextAddr := 0,
    types := types, hooks := hooks }

/-- `Register`: guards in source order (initialised, nil instance,
duplicate name), then inserts the definition with
`Type = reflect.TypeOf(instance)`. -/
def Register (name : String) (instVal : GoVal) (scope : Nat) (s : CState) :
    Outcome Unit × CState :=
  if s.inited then
    (.err "cannot register beans after container initialization", s)
  else if instVal = .vnil then
    (.err "cannot register nil instance", s)
  else
    match lookupA name s.beans with
    | some _ => (.err ("bean with name " ++ name ++ " already exists"), s)
    | none =>
      let bean : BeanDef :=
        { Name := name, TypeName := "", Ty := instVal.typeOf, Instance := instVal,
          Scope := scope, Factory := none, injected := false, inited := false }
      (.ok (), { s with beans := s.beans ++ [(name, bean)] })

/-- `strings.Split(s, ".")` over the character list (a kernel-friendly
model of the library function; same semantics for a one-character
separator). -/
def splitOnDot : List Char → List (List Char)
  | [] => [[]]
  | c :: rest =>
    if c = '.' then [] :: splitOnDot rest
    else
      match splitOnDot rest with
      | [] => [[c]]
      | g :: gs => (c :: g) :: gs

/-- The short type name computed by `RegisterType`: the full name (of
the pointee, for pointer types) split on `.`, last component
(`parts[len(parts)-1]`; the split is never empty). -/
def shortNameOf (t : GoType) : String :=
  let fullTypeName :=
    match t with
    | .ptrTo e => e.str
    | _ => t.str
  String.mk ((splitOnDot fullTypeName.toList).getLastD [])

/-- `RegisterType`: derives `beanName` from the short type name —
prefixed by `typeName + ":"` only when `typeName` is non-empty — and
registers the definition (always `Singleton`, keeping the pointer type
in `Type`) in both `beans` and `typeRegistry`.  `typeRegistry` stores
the `beans` key of the shared definition (see module comment); the
inner write is Go's map assignment
`c.typeRegistry[typeName][shortTypeName] = bean`, which *overwrites*
an existing binding (`insertA`) — unlike the insertion in
`RegisterTypeWithName`, which is guarded by its own duplicate check. -/
def RegisterType (typeName : String) (instVal : GoVal) (s : CState) :
    Outcome Unit × CState :=
  if s.inited then
    (.err "cannot register beans after container initialization", s)
  else if instVal = .vnil then
    (.err "cannot register nil instance", s)
  else
    match instVal.typeOf with
    | none => (.panicked "model: TypeOf of nil", s)
    | some t =>
      let shortTypeName := shortNameOf t
      let beanName := if typeName = "" then shortTypeName else typeName ++ ":" ++ shortTypeName
      match lookupA beanName s.beans with
      | some _ => (.err ("bean with name " ++ beanName ++ " already exists"), s)
      | none =>
        let bean : BeanDef :=
          { Name := beanName, TypeName := typeName, Ty := some t, Instance := instVal,
            Scope := Singleton, Factory := none, injected := false, inited := false }
        let s1 := { s with beans := s.beans ++ [(beanName, bean)] }
        let s2 :=
          match lookupA typeName s1.typeRegistry with
          | some _ => s1
          | none => { s1 with typeRegistry := s1.typeRegistry ++ [(typeName, [])] }
        let newReg := updateA typeName (fun m => insertA shortTypeName beanName m) s2.typeRegistry
        (.ok (), { s2 with typeRegistry := newReg })

/-- `RegisterTypeWithName`: `beanName = typeName + ":" + name`; stores
the dereferenced type (`t = t.Elem()` for pointers).  NOTE (source
order kept): the definition is inserted into `beans` *before* the
`(typeName, name)` duplicate check against `typeRegistry`, so that
error path leaves the new definition in `beans`. -/
def RegisterTypeWithName (typeName name : String) (instVal : GoVal) (s : CState) :
    Outcome Unit × CState :=
  if s.inited then
    (.err "cannot register beans after container initialization", s)
  else if instVal = .vnil then
    (.err "cannot register nil instance", s)
  else
    match instVal.typeOf with
    | none => (.panicked "model: TypeOf of nil", s)
    | some t0 =>
      let t := match t0 with
               | .ptrTo e => e
               | _ => t0
      let beanName := typeName ++ ":" ++ name
      match lookupA beanName s.beans with
      | some _ => (.err ("bean with name " ++ beanName ++ " already exists"), s)
      | none =>
        let bean : BeanDef :=
          { Name := beanName, TypeName := typeName, Ty := some t, Instance := instVal,
            Scope := Singleton, Factory := none, injected := false, inited := false }
        let s1 := { s with beans := s.beans ++ [(beanName, bean)] }
        let s2 :=
          match lookupA typeName s1.typeRegistry with
          | some _ => s1
          | none => { s1 with typeRegistry := s1.typeRegistry ++ [(typeName, [])] }
        match lookupA typeName s2.typeRegistry with
        | none => (.panicked "model: type map missing", s2)
        | some m =>
          match lookupA name m with
          | some _ =>
            (.err ("type " ++ typeName ++ " already has a bean with name " ++ name), s2)
          | none =>
            let newReg := updateA typeName (fun mm => mm ++ [(name, beanName)]) s2.typeRegistry
            (.ok (), { s2 with typeRegistry := newReg })

/-- `RegisterFactory` (`factory = none` models a nil factory
argument). -/
def RegisterFactory (name : String) (scope : Nat) (factory : Option FactorySpec)
    (s : CState) : Outcome Unit × CState :=
  if s.inited then
    (.err "cannot register beans after container initialization", s)
  else
    match factory with
    | none => (.err "factory function cannot be nil", s)
    | some fs =>
      match lookupA name s.beans with
      | some _ => (.err ("bean with name " ++ name ++ " already exists"), s)
      | none =>
        let bean : BeanDef :=
          { Name := name, TypeName := "", Ty := none, Instance := .vnil,
            Scope := scope, Factory := some fs, injected := false, inited := false }
        (.ok (), { s with beans := s.beans ++ [(name, bean)] })

/-- Interpret a factory behaviour (`bean.Factory()`). -/
def runFactory (fs : FactorySpec) (s : CState) : Outcome GoVal × CState :=
  match fs with
  | .freshOf t => let (v, s2) := allocZero t s; (.ok v, s2)
  | .constV v => (.ok v, s)
  | .ffail m => (.err m, s)

/-- Remove a name from the `initializing` set (the deferred
`delete(c.initializing, name)`). -/
def removeInitializing (n : String) (s : CState) : CState :=
  { s with initializing := s.initializing.filter (fun m => m ≠ n) }

/-- `createBeanInstance`: skip when an instance exists; report a
circular dependency when the bean is already mid-creation; otherwise
mark it in-creation, run the factory if present (recording `Instance`
and `Type`), and unmark (a `defer` in the source, registered after the
circular-dependency check). -/
def createBeanInstance (name : String) (s : CState) : Outcome Unit × CState :=
  match lookupA name s.beans with
  | none => (.panicked "model: dangling bean definition", s)
  | some bd =>
    if bd.Instance ≠ .vnil then (.ok (), s)
    else if s.initializing.contains name then
      (.err ("circular dependency detected for bean: " ++ name), s)
    else
      let s1 := { s with initializing := s.initializing ++ [name] }
      match bd.Factory with
      | some fs =>
        match runFactory fs s1 with
        | (.ok v, s2) =>
          let s3 := { s2 with
            beans := updateA name (fun b => { b with Instance := v, Ty := v.typeOf }) s2.beans }
          (.ok (), removeInitializing name s3)
        | (.err e, s2) =>
          (.err ("error creating instance for bean " ++ name ++ ": " ++ e),
           removeInitializing name s2)
        | (r, s2) => (r.castFail, removeInitializing name s2)
      | none => (.ok (), removeInitializing name s1)

/-- Candidate scan of `findCandidateByTypeForInit`: beans whose
instance exists and whose recorded type satisfies the requested type
(implements it for interface requests, is equal to it otherwise). -/
def candScanInit (s : CState) (t : GoType) : List (String × GoVal) :=
  s.beans.filterMap (fun nb =>
    if nb.2.Instance = .vnil then none
    else
      match t with
      | .ifaceT i =>
        match nb.2.Ty with
        | some bt => if implementsI s bt i then some (nb.1, nb.2.Instance) else none
        | none => none
      | _ =>
        match nb.2.Ty with
        | some bt => if t = bt then some (nb.1, nb.2.Instance) else none
        | none => none)

/-- `%v` rendering of the candidate-name slice in the ambiguity
message. -/
def fmtNames (ns : List String) : String :=
  "[" ++ String.intercalate " " ns ++ "]"

/-- `findCandidateByTypeForInit`: zero candidates and several
candidates are the two error cases; otherwise the unique candidate's
instance is returned. -/
def findCandidateByTypeForInit (t : GoType) (s : CState) : Outcome GoVal × CState :=
  match candScanInit s t with
  | [] => (.err ("no bean candidate found for type " ++ t.str), s)
  | [c] => (.ok c.2, s)
  | cs => (.err ("multiple bean candidates found for type " ++ t.str ++ ": "
      ++ fmtNames (cs.map Prod.fst)), s)

/-- One step of the field loop of `injectDuringInit`, then the rest.
`target = some a` when the injected value is a struct reachable
through a pointer (addressable, `CanSet` = exported); `none` when it
is a non-addressable copy (`CanSet` false).  Mirrors the source body:
skip untagged fields; resolve the tagged name against `beans`,
creating the instance on demand; `optional:"true"` downgrades
resolution failures to a skip; then the `CanSet` check, the
interface-conformance check, and the field assignment (a mismatched
non-interface assignment is a reflect panic in Go). -/
def injectFieldsInit (target : Option Nat) : List GoField → CState → Outcome Unit × CState
  | [], s => (.ok (), s)
  | f :: rest, s =>
    let itag := f.injectTag
    if itag = "" then injectFieldsInit target rest s
    else
      let opt := f.optionalTag = "true"
      match lookupA itag s.beans with
      | none =>
        if opt then injectFieldsInit target rest s
        else (.err ("bean with name " ++ itag ++ " not found"), s)
      | some bd0 =>
        let step :=
          if bd0.Instance = .vnil then createBeanInstance itag s
          else (.ok (), s)
        match step with
        | (.err e, s2) =>
          if opt then injectFieldsInit target rest s2 else (.err e, s2)
        | (.panicked m, s2) => (.panicked m, s2)
        | (.fuelOut, s2) => (.fuelOut, s2)
        | (.ok _, s2) =>
          match lookupA itag s2.beans with
          | none => (.panicked "model: dangling bean definition", s2)
          | some bd =>
            let beanV := bd.Instance
            if h : f.exported ∧ target.isSome then
              match f.fty with
              | .ifaceT i =>
                match beanV.typeOf with
                | none => (.panicked "reflect: call of reflect.Value.Type on zero Value", s2)
                | some bt =>
                  if implementsI s2 bt i then
                    injectFieldsInit target rest
                      (setField (target.get h.2) f.fname beanV s2)
                  else
                    (.err ("bean of type " ++ bt.str ++ " does not implement interface "
                      ++ i), s2)
              | fty =>
                match beanV.typeOf with
                | some bt =>
                  if bt = fty then
                    injectFieldsInit target rest
                      (setField (target.get h.2) f.fname beanV s2)
                  else (.panicked ("reflect.Set: value of type " ++ bt.str
                    ++ " is not assignable to type " ++ fty.str), s2)
                | none => (.panicked "reflect: call of reflect.Value.Type on zero Value", s2)
            else
              (.err ("cannot set field " ++ f.fname ++ ", it might be unexported"), s2)

/-- `injectDuringInit`: reject a nil target, dereference a pointer
target, require a struct, then run the field loop over the dynamic
type's declared fields. -/
def injectDuringInit (instVal : GoVal) (s : CState) : Outcome Unit × CState :=
  match instVal with
  | .vnil => (.err "cannot inject into nil instance", s)
  | .vptr t a =>
    if t.isStruct then injectFieldsInit (some a) (fieldsOf s t) s
    else (.err ("can only inject into struct, got " ++ t.kindName), s)
  | .vval t =>
    if t.isStruct then injectFieldsInit none (fieldsOf s t) s
    else (.err ("can only inject into struct, got " ++ t.kindName), s)

/-- `injectBeanDependencies`: idempotent via the `injected` flag; runs
`injectDuringInit` on the bean's instance and records the flag on
success. -/
def injectBeanDependencies (name : String) (s : CState) : Outcome Unit × CState :=
  match lookupA name s.beans with
  | none => (.panicked "model: dangling bean definition", s)
  | some bd =>
    if bd.injected then (.ok (), s)
    else
      match injectDuringInit bd.Instance s with
      | (.ok _, s2) =>
        (.ok (), { s2 with beans := updateA name (fun b => { b with injected := true }) s2.beans })
      | (.err e, s2) =>
        (.err ("error injecting dependencies for bean " ++ name ++ ": " ++ e), s2)
      | (r, s2) => (r, s2)

/-- Whether a value's dynamic type implements `InitializingBean`
(the `instance.(InitializingBean)` type assertion). -/
def isInitializingBean (s : CState) (v : GoVal) : Bool :=
  match v.typeOf with
  | some t => implementsI s t "InitializingBean"
  | none => false

/-- Run the `PostConstruct` hook of the object's type, per the hook
environment (default: succeed without observable effect). -/
def runPostConstruct (v : GoVal) (s : CState) : Outcome Unit × CState :=
  match v with
  | .vptr (.structT n) a =>
    match lookupA n s.hooks with
    | some (.marks f) => (.ok (), setField a f markerVal s)
    | some (.hfails m) => (.err m, s)
    | _ => (.ok (), s)
  | _ => (.ok (), s)

/-- `initializeBean`: idempotent via the `initialized` flag; injects
first if not yet injected; beans without the `InitializingBean`
capability are merely marked; hook errors are wrapped. -/
def initializeBean (name : String) (s : CState) : Outcome Unit × CState :=
  match lookupA name s.beans with
  | none => (.panicked "model: dangling bean definition", s)
  | some bd =>
    if bd.inited then (.ok (), s)
    else
      let step :=
        if ¬ bd.injected then injectBeanDependencies name s else (.ok (), s)
      match step with
      | (.ok _, s2) =>
        match lookupA name s2.beans with
        | none => (.panicked "model: dangling bean definition", s2)
        | some bd2 =>
          if ¬ isInitializingBean s2 bd2.Instance then
            (.ok (), { s2 with beans := updateA name (fun b => { b with inited := true }) s2.beans })
          else
            match runPostConstruct bd2.Instance s2 with
            | (.ok _, s3) =>
              (.ok (), { s3 with beans := updateA name (fun b => { b with inited := true }) s3.beans })
            | (.err e, s3) =>
              (.err ("error initializing bean " ++ name ++ ": " ++ e), s3)
            | (r, s3) => (r, s3)
      | other => other

/-- Phase-1a loop of `Init`: create instances of all Singleton beans. -/
def createAll : List String → CState → Outcome Unit × CState
  | [], s => (.ok (), s)
  | n :: rest, s =>
    match lookupA n s.beans with
    | none => createAll rest s
    | some bd =>
      if bd.Scope = Singleton then
        match createBeanInstance n s with
        | (.ok _, s2) => createAll rest s2
        | other => other
      else createAll rest s

/-- Phase-1b loop of `Init`: inject dependencies of all Singleton
beans. -/
def injectAll : List String → CState → Outcome Unit × CState
  | [], s => (.ok (), s)
  | n :: rest, s =>
    match lookupA n s.beans with
    | none => injectAll rest s
    | some bd =>
      if bd.Scope = Singleton then
        match injectBeanDependencies n s with
        | (.ok _, s2) => injectAll rest s2
        | other => other
      else injectAll rest s

/-- Phase-2 loop of `Init`: `PostConstruct` of all Singleton beans. -/
def initAll : List String → CState → Outcome Unit × CState
  | [], s => (.ok (), s)
  | n :: rest, s =>
    match lookupA n s.beans with
    | none => initAll rest s
    | some bd =>
      if bd.Scope = Singleton then
        match initializeBean n s with
        | (.ok _, s2) => initAll rest s2
        | other => other
      else initAll rest s

/-- The guarded body of `Init` (everything after the
already-initialized check): the two-phase start-up.  Fails fast on the
first error of any loop, leaving `initialized` untouched and
`currentPhase` at the phase that failed; only full success sets
`initialized` and the `Initialized` phase. -/
def initPhases (s : CState) : Outcome Unit × CState :=
  let s1 := { s with currentPhase := InjectionPhase }
  match createAll (s1.beans.map Prod.fst) s1 with
  | (.ok _, s2) =>
    match injectAll (s2.beans.map Prod.fst) s2 with
    | (.ok _, s3) =>
      let s4 := { s3 with currentPhase := PostConstructPhase }
      match initAll (s4.beans.map Prod.fst) s4 with
      | (.ok _, s5) => (.ok (), { s5 with inited := true, currentPhase := InitializedPhase })
      | other => other
    | other => other
  | other => other

/-- `Init`: the already-initialized guard, then the two phases. -/
def Init (s : CState) : Outcome Unit × CState :=
  if s.inited then (.err "container already initialized", s)
  else initPhases s

/-- `GetByType`: panics (not errors) on an uninitialised container and
on failed lookups; returns the recorded instance for Singletons; for
a Prototype it would return `reflect.New(bean.Type.Elem())` — a fresh
zero value, with no injection, no `PostConstruct` and no registration
(the source comments this branch as a simplification). -/
def GetByType (typeName name : String) (s : CState) : Outcome GoVal × CState :=
  if s.currentPhase = NotInitializedPhase then
    (.panicked "container not initialized, call Init() first", s)
  else
    match lookupA typeName s.typeRegistry with
    | none => (.panicked ("no beans registered for type " ++ typeName), s)
    | some m =>
      match lookupA name m with
      | none =>
        (.panicked ("bean with name " ++ name ++ " of type " ++ typeName ++ " not found"), s)
      | some key =>
        match lookupA key s.beans with
        | none => (.panicked "model: dangling registry entry", s)
        | some bd =>
          if bd.Scope = Singleton then (.ok bd.Instance, s)
          else
            match bd.Ty with
            | none => (.panicked "runtime error: invalid memory address", s)
            | some t =>
              match t.elem? with
              | none => (.panicked "reflect: Elem of invalid type", s)
              | some te => let (v, s2) := allocZero te s; (.ok v, s2)

/-- Candidate scan of the public `findCandidateByType` (no
instance-nil skip, no nil-type guard): returns `none` when the scan
dereferences a nil recorded type against an interface request (a nil
pointer dereference panic in Go), otherwise the candidate names in
registration order. -/
def candScanPub (s : CState) (t : GoType) : List (String × BeanDef) → Option (List String)
  | [] => some []
  | (n, bd) :: rest =>
    match t with
    | .ifaceT i =>
      match bd.Ty with
      | none => none
      | some bt =>
        match candScanPub s t rest with
        | none => none
        | some ns => some (if implementsI s bt i then n :: ns else ns)
    | _ =>
      match candScanPub s t rest with
      | none => none
      | some ns =>
        match bd.Ty with
        | some bt => some (if t = bt then n :: ns else ns)
        | none => some ns

/-- Requests of the mutually recursive public operations, interpreted
by the fuel-indexed `exec`: `GetSafe`, `Get`, `Inject` (and its field
loop), `createPrototypeInstance`, `findCandidateByType`. -/
inductive Req : Type where
  | rGetSafe (name : String)
  | rGet (name : String)
  | rInject (v : GoVal)
  | rInjectFields (target : Option Nat) (flds : List GoField)
  | rProto (bean : BeanDef)
  | rFindCand (t : GoType)

/-- Fuel-indexed interpreter of the mutually recursive public
operations; every cross-call consumes one unit of fuel (Go stack).
Operations returning only an error are modelled with `.ok .vnil` as
the nil error.  Each request body is the direct transcription of the
corresponding source function (see the wrappers below for the
name-for-name mapping). -/
def exec : Nat → Req → CState → Outcome GoVal × CState
  | 0, _, s => (.fuelOut, s)
  | Nat.succ fuel, req, s =>
    match req with
    | .rGetSafe name =>
      match lookupA name s.beans with
      | none => (.err ("bean with name " ++ name ++ " not found"), s)
      | some bd =>
        if s.currentPhase = NotInitializedPhase then
          (.err "container not initialized, call Init() first", s)
        else if s.currentPhase = InjectionPhase then
          if bd.Instance = .vnil then
            if s.initializing.contains name then
              (.err ("circular dependency detected for bean: " ++ name), s)
            else
              match createBeanInstance name s with
              | (.ok _, s2) =>
                match injectBeanDependencies name s2 with
                | (.ok _, s3) =>
                  match lookupA name s3.beans with
                  | some bd3 => (.ok bd3.Instance, s3)
                  | none => (.panicked "model: dangling bean definition", s3)
                | (r, s3) => (r.castFail, s3)
              | (r, s2) => (r.castFail, s2)
          else (.ok bd.Instance, s)
        else if s.currentPhase = PostConstructPhase ∨ s.currentPhase = InitializedPhase then
          if bd.Scope = Singleton then (.ok bd.Instance, s)
          else exec fuel (.rProto bd) s
        else (.err "unknown container state", s)
    | .rGet name =>
      match exec fuel (.rGetSafe name) s with
      | (.err e, s2) => (.panicked e, s2)
      | other => other
    | .rProto bd =>
      let created : Outcome GoVal × CState :=
        match bd.Factory with
        | some fs => runFactory fs s
        | none =>
          match bd.Ty with
          | none =>
            (.panicked "runtime error: invalid memory address or nil pointer dereference", s)
          | some t =>
            match t.elem? with
            | none => (.panicked "reflect: Elem of invalid type", s)
            | some te => let (v, s2) := allocZero te s; (.ok v, s2)
      match created with
      | (.ok v, s2) =>
        match exec fuel (.rInject v) s2 with
        | (.ok _, s3) =>
          if isInitializingBean s3 v then
            match runPostConstruct v s3 with
            | (.ok _, s4) => (.ok v, s4)
            | (r, s4) => (r.castFail, s4)
          else (.ok v, s3)
        | (r, s3) => (r, s3)
      | other => other
    | .rInject v =>
      match v with
      | .vnil => (.err "cannot inject into nil instance", s)
      | .vptr t a =>
        if t.isStruct then exec fuel (.rInjectFields (some a) (fieldsOf s t)) s
        else (.err ("can only inject into struct, got " ++ t.kindName), s)
      | .vval t =>
        if t.isStruct then exec fuel (.rInjectFields none (fieldsOf s t)) s
        else (.err ("can only inject into struct, got " ++ t.kindName), s)
    | .rInjectFields target flds =>
      match flds with
      | [] => (.ok .vnil, s)
      | f :: rest =>
        if f.injectTag = "" then exec fuel (.rInjectFields target rest) s
        else
          let opt := f.optionalTag = "true"
          let resolved :=
            if f.injectTag = "" then exec fuel (.rFindCand f.fty) s
            else exec fuel (.rGetSafe f.injectTag) s
          match resolved with
          | (.err e, s2) =>
            if opt then exec fuel (.rInjectFields target rest) s2
            else (.err ("error injecting field " ++ f.fname ++ ": " ++ e), s2)
          | (.ok beanV, s2) =>
            if h : f.exported ∧ target.isSome then
              match f.fty with
              | .ifaceT i =>
                match beanV.typeOf with
                | none =>
                  (.panicked "reflect: call of reflect.Value.Type on zero Value", s2)
                | some bt =>
                  if implementsI s2 bt i then
                    exec fuel (.rInjectFields target rest)
                      (setField (target.get h.2) f.fname beanV s2)
                  else
                    (.err ("bean of type " ++ bt.str ++ " does not implement interface "
                      ++ i), s2)
              | fty =>
                match beanV.typeOf with
                | some bt =>
                  if bt = fty then
                    exec fuel (.rInjectFields target rest)
                      (setField (target.get h.2) f.fname beanV s2)
                  else (.panicked ("reflect.Set: value of type " ++ bt.str
                    ++ " is not assignable to type " ++ fty.str), s2)
                | none =>
                  (.panicked "reflect: call of reflect.Value.Type on zero Value", s2)
            else
              (.err ("cannot set field " ++ f.fname ++ ", it might be unexported"), s2)
          | (r, s2) => (r, s2)
    | .rFindCand t =>
      match candScanPub s t s.beans with
      | none =>
        (.panicked "runtime error: invalid memory address or nil pointer dereference", s)
      | some [] => (.err ("no bean candidate found for type " ++ t.str), s)
      | some [c] => exec fuel (.rGet c) s
      | some cs => (.err ("multiple bean candidates found for type " ++ t.str ++ ": "
          ++ fmtNames cs), s)

/-- `GetSafe` (fuel-indexed; see `exec`). -/
def GetSafe (fuel : Nat) (name : String) (s : CState) : Outcome GoVal × CState :=
  exec fuel (.rGetSafe name) s

/-- `Get`: `GetSafe` with errors escalated to panics. -/
def Get (fuel : Nat) (name : String) (s : CState) : Outcome GoVal × CState :=
  exec fuel (.rGet name) s

/-- Public `Inject` (ad-hoc injection; resolves tagged fields through
`GetSafe`). -/
def Inject (fuel : Nat) (v : GoVal) (s : CState) : Outcome Unit × CState :=
  match exec fuel (.rInject v) s with
  | (.ok _, s2) => (.ok (), s2)
  | (r, s2) => (r.castFail, s2)

/-- `createPrototypeInstance`: factory or `reflect.New` creation, then
`Inject`, then `PostConstruct`; the produced value is returned without
being recorded anywhere in the container. -/
def createPrototypeInstance (fuel : Nat) (bd : BeanDef) (s : CState) :
    Outcome GoVal × CState :=
  exec fuel (.rProto bd) s

/-- Public `findCandidateByType` (reachable only from `Inject`'s dead
empty-tag branch). -/
def findCandidateByType (fuel : Nat) (t : GoType) (s : CState) : Outcome GoVal × CState :=
  exec fuel (.rFindCand t) s

/-! ## Test fixtures

Concrete programs against the container, mirroring the spec's
scenarios.  Each fixture allocates its instances with `allocZero`
(the caller's `&T{}`), registers them, and initialises. -/

/-- Struct type of bean A of the by-name cycle scenario. -/
def c1TyA : GoType := .structT "cyc.AImpl"

/-- Struct type of bean B of the by-name cycle scenario. -/
def c1TyB : GoType := .structT "cyc.BImpl"

/-- Type table of the cycle scenario: `AImpl` implements `IA` and
injects bean `b` by name into its `IB`-typed field; `BImpl` implements
`IB` and injects bean `a` by name into its `IA`-typed field. -/
def c1Types (a b : String) : List (String × StructInfo) :=
  [("cyc.AImpl", ⟨["IA"], [⟨"FB", .ifaceT "IB", b, "", true⟩]⟩),
   ("cyc.BImpl", ⟨["IB"], [⟨"FA", .ifaceT "IA", a, "", true⟩]⟩)]

/-- Cycle scenario setup: allocate `&AImpl{}` (address 0) and
`&BImpl{}` (address 1), register them as Singletons under `a` and `b`. -/
def c1Setup (a b : String) : CState :=
  let s0 := NewContainer (c1Types a b) []
  let p1 := allocZero c1TyA s0
  let p2 := allocZero c1TyB p1.2
  (Register b p2.1 Singleton (Register a p1.1 Singleton p2.2).2).2

/-- `Init` on the cycle scenario. -/
def c1Res (a b : String) : Outcome Unit × CState := Init (c1Setup a b)

/-- Struct type of the unique `IC` implementation of the empty-marker
scenario. -/
def c2SvcTy : GoType := .structT "impl.SvcImpl"

/-- Struct type of the injection target of the empty-marker scenario:
one field `Dep` of interface type `IC` whose injection marker carries
an empty name. -/
def c2TgtTy : GoType := .structT "tgt.TargetS"

/-- Type table of the empty-marker scenario. -/
def c2Types : List (String × StructInfo) :=
  [("impl.SvcImpl", ⟨["IC"], []⟩),
   ("tgt.TargetS", ⟨[], [⟨"Dep", .ifaceT "IC", "", "", true⟩]⟩)]

/-- Empty-marker scenario: one `IC` bean registered and initialised. -/
def c2Setup : CState :=
  let s0 := NewContainer c2Types []
  let p1 := allocZero c2SvcTy s0
  (Init (Register "svc" p1.1 Singleton p1.2).2).2

/-- A freshly allocated `&TargetS{}` (address 1) against the
initialised empty-marker scenario. -/
def c2Target : GoVal × CState := allocZero c2TgtTy c2Setup

/-- `Inject` run on the empty-marker target. -/
def c2After : Outcome Unit × CState := Inject 9 c2Target.1 c2Target.2

/-- Struct type of the constant-factory Prototype scenario. -/
def c3PTy : GoType := .structT "pr.P"

/-- Constant-factory Prototype scenario: the factory of bean `p`
returns the same caller-allocated pointer (address 0) on every call. -/
def c3aSetup : CState :=
  let s0 := NewContainer [("pr.P", ⟨[], []⟩)] []
  let p1 := allocZero c3PTy s0
  (Init (RegisterFactory "p" Prototype (some (.constV p1.1)) p1.2).2).2

/-- Struct type of the dependency of the plain-Prototype scenario. -/
def c3SvcTy : GoType := .structT "impl.SvcImpl2"

/-- Struct type of the plain Prototype bean: injects `svc` by name
into `Dep`, implements `InitializingBean`, and its hook marks `Mark`. -/
def c3ProtoTy : GoType := .structT "pr.ProtoImpl"

/-- Type table of the plain-Prototype scenario. -/
def c3Types : List (String × StructInfo) :=
  [("impl.SvcImpl2", ⟨["IS"], []⟩),
   ("pr.ProtoImpl", ⟨["InitializingBean"],
     [⟨"Dep", .ifaceT "IS", "svc", "", true⟩, ⟨"Mark", .basic "bool", "", "", true⟩]⟩)]

/-- Plain-Prototype scenario: Singleton `svc` (address 0) and
Prototype `p` (registered instance at address 1), initialised. -/
def c3Setup : CState :=
  let s0 := NewContainer c3Types [("pr.ProtoImpl", .marks "Mark")]
  let p1 := allocZero c3SvcTy s0
  let p2 := allocZero c3ProtoTy p1.2
  (Init (Register "p" p2.1 Prototype (Register "svc" p1.1 Singleton p2.2).2).2).2

/-- First retrieval of the plain Prototype bean. -/
def c3Get1 : Outcome GoVal × CState := GetSafe 9 "p" c3Setup

/-- Second retrieval of the plain Prototype bean (against the state
left by the first). -/
def c3Get2 : Outcome GoVal × CState := GetSafe 9 "p" c3Get1.2

/-- Struct type of `productRepository`'s implementation. -/
def c4RepoTy : GoType := .structT "repo.ProductRepositoryImpl"

/-- Struct type of `productService`'s implementation (injects
`productRepository` by name into `Repo`). -/
def c4SvcTy : GoType := .structT "svc.ProductServiceImpl"

/-- Type table of the product scenario. -/
def c4Types : List (String × StructInfo) :=
  [("repo.ProductRepositoryImpl", ⟨["ProductRepository"], []⟩),
   ("svc.ProductServiceImpl", ⟨["ProductService"],
     [⟨"Repo", .ifaceT "ProductRepository", "productRepository", "", true⟩]⟩)]

/-- Product scenario before `Init`: repository at address 0, service
at address 1, both Singletons. -/
def c4Pre : CState :=
  let s0 := NewContainer c4Types []
  let p1 := allocZero c4RepoTy s0
  let p2 := allocZero c4SvcTy p1.2
  (Register "productService" p2.1 Singleton
    (Register "productRepository" p1.1 Singleton p2.2).2).2

/-- Product scenario after `Init`. -/
def c4Setup : CState := (Init c4Pre).2

/-- The `productService` definition after `Init` (for instantiating
the Singleton-identity theorem). -/
def c4SvcDef : BeanDef :=
  { Name := "productService", TypeName := "", Ty := some (.ptrTo c4SvcTy),
    Instance := .vptr c4SvcTy 1, Scope := Singleton, Factory := none,
    injected := true, inited := true }

/-- Struct type used by the by-category registration scenarios. -/
def c6FooTy : GoType := .structT "pkg.FooImpl"

/-- A caller-held `*FooImpl` pointer (address 0). -/
def c6inst : GoVal := .vptr c6FooTy 0

/-- State after `RegisterType("", &FooImpl{})`: the bean is registered
under the plain short name `FooImpl` and indexed under category `""`. -/
def c8s1 : CState := (RegisterType "" c6inst (NewContainer [] [])).2

/-- `RegisterTypeWithName("", "FooImpl", &BarImpl{})` against `c8s1`:
the derived bean name `:FooImpl` is free in `beans` (inserted), but
`("", "FooImpl")` is taken in `typeRegistry` (error). -/
def c8res : Outcome Unit × CState :=
  RegisterTypeWithName "" "FooImpl" (.vptr (.structT "pkg.BarImpl") 1) c8s1

/-- Struct type of the failing-`Init` scenario: injects the
never-registered bean `missing`, non-optionally. -/
def c9WTy : GoType := .structT "w.WImpl"

/-- Failing-`Init` scenario before `Init`. -/
def c9Pre : CState :=
  let s0 := NewContainer [("w.WImpl", ⟨[], [⟨"Dep", .ifaceT "IX", "missing", "", true⟩]⟩)] []
  let p1 := allocZero c9WTy s0
  (Register "w" p1.1 Singleton p1.2).2

/-- The failing `Init` run. -/
def c9Res : Outcome Unit × CState := Init c9Pre

/-- Struct type of the non-pointer Prototype scenario. -/
def c10PTy : GoType := .structT "pl.PStruct"

/-- Non-pointer Prototype scenario: `PStruct{}` (a non-pointer struct
value) registered as a Prototype, container initialised. -/
def c10Setup : CState :=
  let s0 := NewContainer [("pl.PStruct", ⟨[], []⟩)] []
  (Init (Register "p" (GoVal.vval c10PTy) Prototype s0).2).2

/-- The definition registered under `a` in the cycle scenario (used to
instantiate general retrieval theorems). -/
def c5ADef : BeanDef :=
  { Name := "a", TypeName := "", Ty := some (.ptrTo c1TyA), Instance := .vptr c1TyA 0,
    Scope := Singleton, Factory := none, injected := false, inited := false }

/-- The definition inserted by `RegisterType("", &FooImpl{})` (used to
instantiate the Singleton-scope theorem). -/
def c3WitDef : BeanDef :=
  { Name := "FooImpl", TypeName := "", Ty := some (.ptrTo c6FooTy), Instance := c6inst,
    Scope := Singleton, Factory := none, injected := false, inited := false }

/-- Failing-factory Prototype scenario: bean `pf` whose factory
always errors, container initialised. -/
def c10fSetup : CState :=
  (Init (RegisterFactory "pf" Prototype (some (.ffail "boom")) (NewContainer [] [])).2).2

/-- The definition of the failing-factory Prototype bean. -/
def c10fDef : BeanDef :=
  { Name := "pf", TypeName := "", Ty := none, Instance := .vnil, Scope := Prototype,
    Factory := some (.ffail "boom"), injected := false, inited := false }

/-- Struct type of the dependency-free pointer Prototype scenario. -/
def c10QTy : GoType := .structT "pl.QStruct"

/-- Dependency-free pointer Prototype scenario: `&QStruct{}` (address
0) registered as Prototype, container initialised. -/
def c10eSetup : CState :=
  let s0 := NewContainer [("pl.QStruct", ⟨[], []⟩)] []
  let p1 := allocZero c10QTy s0
  (Init (Register "q" p1.1 Prototype p1.2).2).2

/-- The definition of the dependency-free pointer Prototype bean. -/
def c10eDef : BeanDef :=
  { Name := "q", TypeName := "", Ty := some (.ptrTo c10QTy), Instance := .vptr c10QTy 0,
    Scope := Prototype, Factory := none, injected := false, inited := false }

/-- The definition that `RegisterTypeWithName(ty, nm, v)` builds
(the recorded type is the pointee for pointer instances). -/
def mkTypeWithNameDef (ty nm : String) (v : GoVal) : BeanDef :=
  { Name := ty ++ ":" ++ nm, TypeName := ty,
    Ty := match v.typeOf with
          | some (.ptrTo e) => some e
          | some t0 => some t0
          | none => none,
    Instance := v, Scope := Singleton, Factory := none, injected := false,
    inited := false }

/-! ## General lemmas -/

/-- Looking a key up after appending one binding. -/
theorem lookupA_append {β : Type} (k n : String) (l : List (String × β)) (b : β) :
    lookupA k (l ++ [(n, b)]) =
      match lookupA k l with
      | some v => some v
      | none => if n = k then some b else none := by
  induction l with
  | nil => simp [lookupA]
  | cons hd t ih =>
    obtain ⟨k2, v⟩ := hd
    by_cases hk : k2 = k <;> simp [lookupA, hk, ih]

/-- Updating a key rewrites exactly that key's binding. -/
theorem lookupA_updateA {β : Type} (k : String) (f : β → β) (l : List (String × β)) :
    lookupA k (updateA k f l) = Option.map f (lookupA k l) := by
  induction l with
  | nil => simp [lookupA, updateA]
  | cons hd t ih =>
    obtain ⟨k2, v⟩ := hd
    by_cases hk : k2 = k <;> simp [lookupA, updateA, hk, ih]

/-- Updating one key leaves other keys' bindings unchanged. -/
theorem lookupA_updateA_ne {β : Type} (j k : String) (hjk : j ≠ k) (f : β → β)
    (l : List (String × β)) : lookupA j (updateA k f l) = lookupA j l := by
  induction l with
  | nil => simp [updateA]
  | cons hd t ih =>
    obtain ⟨k2, v⟩ := hd
    by_cases hk : k2 = k
    · subst hk
      simp [lookupA, updateA, Ne.symm hjk, ih]
    · by_cases hj : k2 = j <;> simp [lookupA, updateA, hk, hj, hjk, ih]

/-- Map assignment binds its key: looking the key up afterwards finds
the new value, whether or not it was bound before. -/
theorem lookupA_insertA {β : Type} (k : String) (v : β) (l : List (String × β)) :
    lookupA k (insertA k v l) = some v := by
  induction l with
  | nil => simp [insertA, lookupA]
  | cons hd t ih =>
    obtain ⟨k2, w⟩ := hd
    by_cases hk : k2 = k <;> simp [insertA, lookupA, hk, ih]

/-- `runFactory` never touches the initialized flag. -/
theorem runFactory_inited (fs : FactorySpec) (s : CState) :
    (runFactory fs s).2.inited = s.inited := by
  cases fs <;> rfl

/-- `createBeanInstance` never touches the initialized flag. -/
theorem createBeanInstance_inited (n : String) (s : CState) :
    (createBeanInstance n s).2.inited = s.inited := by
  unfold createBeanInstance
  rcases h : lookupA n s.beans with _ | bd
  · simp [h]
  · simp only [h]
    by_cases h1 : bd.Instance = .vnil
    · by_cases h2 : n ∈ s.initializing
      · simp [h1, h2]
      · rcases hf : bd.Factory with _ | fs
        · simp [h1, h2, hf, removeInitializing]
        · rcases hr : runFactory fs { s with initializing := s.initializing ++ [n] }
            with ⟨r, s2⟩
          have hi : s2.inited = s.inited := by
            have := runFactory_inited fs { s with initializing := s.initializing ++ [n] }
            rw [hr] at this
            exact this
          rcases r with v | e | m | _ <;>
            simp [h1, h2, hf, hr, removeInitializing, hi, Outcome.castFail]
    · simp [h1]

/-- The field loop of `injectDuringInit` never touches the initialized
flag. -/
theorem injectFieldsInit_inited (tgt : Option Nat) (flds : List GoField) :
    ∀ s : CState, (injectFieldsInit tgt flds s).2.inited = s.inited := by
  induction flds with
  | nil => intro s; rfl
  | cons f rest ih =>
    intro s
    unfold injectFieldsInit
    by_cases h0 : f.injectTag = ""
    · simp [h0, ih]
    · simp only [h0, if_false, reduceIte]
      rcases hb : lookupA f.injectTag s.beans with _ | bd0
      · by_cases hopt : f.optionalTag = "true" <;> simp [hb, hopt, ih]
      · simp only [hb]
        rcases hs : (if bd0.Instance = .vnil then createBeanInstance f.injectTag s
            else (.ok (), s)) with ⟨r, s2⟩
        have hi : s2.inited = s.inited := by
          by_cases hv : bd0.Instance = .vnil
          · have := createBeanInstance_inited f.injectTag s
            rw [hv, if_pos rfl] at hs
            rw [hs] at this
            exact this
          · rw [if_neg hv] at hs
            cases hs
            rfl
        rcases r with u | e | m | _
        · rcases hb2 : lookupA f.injectTag s2.beans with _ | bd
          · simp [hs, hb2, hi]
          · by_cases hset : f.exported ∧ tgt.isSome
            · have hsetf : ∀ a v, (setField a f.fname v s2).inited = s.inited := by
                intro a v
                simp [setField, hi]
              rcases hty : f.fty with te | nm | i | nm <;>
                rcases htv : bd.Instance.typeOf with _ | bt <;>
                  simp [hs, hb2, hset, hi, hty, htv, ih, hsetf] <;>
                    split <;> simp [ih, hsetf, hi]
            · simp [hs, hb2, hset, hi]
        · by_cases hopt : f.optionalTag = "true"
          · have := ih s2
            simp [hs, hopt, this, hi]
          · simp [hs, hopt, hi]
        · simp [hs, hi]
        · simp [hs, hi]

/-- `injectDuringInit` never touches the initialized flag. -/
theorem injectDuringInit_inited (v : GoVal) (s : CState) :
    (injectDuringInit v s).2.inited = s.inited := by
  unfold injectDuringInit
  rcases v with _ | ⟨t, a⟩ | t
  · rfl
  · by_cases ht : t.isStruct <;> simp [ht, injectFieldsInit_inited]
  · by_cases ht : t.isStruct <;> simp [ht, injectFieldsInit_inited]

/-- `injectBeanDependencies` never touches the initialized flag. -/
theorem injectBeanDependencies_inited (n : String) (s : CState) :
    (injectBeanDependencies n s).2.inited = s.inited := by
  unfold injectBeanDependencies
  rcases h : lookupA n s.beans with _ | bd
  · simp [h]
  · by_cases hj : bd.injected
    · simp [h, hj]
    · rcases hi : injectDuringInit bd.Instance s with ⟨r, s2⟩
      have h2 : s2.inited = s.inited := by
        have := injectDuringInit_inited bd.Instance s
        rw [hi] at this
        exact this
      rcases r with u | e | m | _ <;> simp [h, hj, hi, h2]

/-- `runPostConstruct` never touches the initialized flag. -/
theorem runPostConstruct_inited (v : GoVal) (s : CState) :
    (runPostConstruct v s).2.inited = s.inited := by
  unfold runPostConstruct
  rcases v with _ | ⟨t, a⟩ | t
  · rfl
  · rcases t with te | nm | i | nm
    · rfl
    · rcases hh : lookupA nm s.hooks with _ | hk
      · simp [hh]
      · rcases hk with f | m | _ <;> simp [hh, setField]
    · rfl
    · rfl
  · rfl

/-- `initializeBean` never touches the initialized flag (the *bean*'s
progress flag is updated, the *container*'s is not). -/
theorem initializeBean_inited (n : String) (s : CState) :
    (initializeBean n s).2.inited = s.inited := by
  unfold initializeBean
  rcases h : lookupA n s.beans with _ | bd
  · simp [h]
  · by_cases hd : bd.inited
    · simp [h, hd]
    · rcases hs2 : (if bd.injected = false then injectBeanDependencies n s else (.ok (), s))
        with ⟨r, s2⟩
      have h2 : s2.inited = s.inited := by
        by_cases hj : bd.injected = false
        · rw [if_pos hj] at hs2
          have := injectBeanDependencies_inited n s
          rw [hs2] at this
          exact this
        · rw [if_neg hj] at hs2
          cases hs2
          rfl
      rcases r with u | e | m | _
      · rcases hb2 : lookupA n s2.beans with _ | bd2
        · simp [h, hd, hs2, hb2, h2]
        · by_cases hib : isInitializingBean s2 bd2.Instance
          · rcases hpc : runPostConstruct bd2.Instance s2 with ⟨r3, s3⟩
            have h3 : s3.inited = s2.inited := by
              have := runPostConstruct_inited bd2.Instance s2
              rw [hpc] at this
              exact this
            rcases r3 with u3 | e3 | m3 | _ <;>
              simp [h, hd, hs2, hb2, hib, hpc, h3, h2]
          · simp [h, hd, hs2, hb2, hib, h2]
      · simp [h, hd, hs2, h2]
      · simp [h, hd, hs2, h2]
      · simp [h, hd, hs2, h2]

/-- `createAll` never touches the initialized flag. -/
theorem createAll_inited (ns : List String) :
    ∀ s : CState, (createAll ns s).2.inited = s.inited := by
  induction ns with
  | nil => intro s; rfl
  | cons n rest ih =>
    intro s
    unfold createAll
    rcases h : lookupA n s.beans with _ | bd
    · simp [h, ih]
    · by_cases hsc : bd.Scope = Singleton
      · rcases hc : createBeanInstance n s with ⟨r, s2⟩
        have h2 : s2.inited = s.inited := by
          have := createBeanInstance_inited n s
          rw [hc] at this
          exact this
        rcases r with u | e | m | _ <;> simp [h, hsc, hc, h2, ih]
      · simp [h, hsc, ih]

/-- `injectAll` never touches the initialized flag. -/
theorem injectAll_inited (ns : List String) :
    ∀ s : CState, (injectAll ns s).2.inited = s.inited := by
  induction ns with
  | nil => intro s; rfl
  | cons n rest ih =>
    intro s
    unfold injectAll
    rcases h : lookupA n s.beans with _ | bd
    · simp [h, ih]
    · by_cases hsc : bd.Scope = Singleton
      · rcases hc : injectBeanDependencies n s with ⟨r, s2⟩
        have h2 : s2.inited = s.inited := by
          have := injectBeanDependencies_inited n s
          rw [hc] at this
          exact this
        rcases r with u | e | m | _ <;> simp [h, hsc, hc, h2, ih]
      · simp [h, hsc, ih]

/-- `initAll` never touches the initialized flag. -/
theorem initAll_inited (ns : List String) :
    ∀ s : CState, (initAll ns s).2.inited = s.inited := by
  induction ns with
  | nil => intro s; rfl
  | cons n rest ih =>
    intro s
    unfold initAll
    rcases h : lookupA n s.beans with _ | bd
    · simp [h, ih]
    · by_cases hsc : bd.Scope = Singleton
      · rcases hc : initializeBean n s with ⟨r, s2⟩
        have h2 : s2.inited = s.inited := by
          have := initializeBean_inited n s
          rw [hc] at this
          exact this
        rcases r with u | e | m | _ <;> simp [h, hsc, hc, h2, ih]
      · simp [h, hsc, ih]

/-- A failed `initPhases` leaves the initialized flag as it was. -/
theorem initPhases_err_inited (s : CState) (e : String) (s2 : CState)
    (h : initPhases s = (.err e, s2)) : s2.inited = s.inited := by
  unfold initPhases at h
  dsimp only at h
  rcases h1 : createAll (s.beans.map Prod.fst) { s with currentPhase := InjectionPhase }
      with ⟨r1, t1⟩
  have g1 : t1.inited = s.inited := by
    have := createAll_inited (s.beans.map Prod.fst) { s with currentPhase := InjectionPhase }
    rw [h1] at this
    exact this
  rw [h1] at h
  rcases r1 with u | e1 | m1 | _
  · dsimp only at h
    rcases h2 : injectAll (t1.beans.map Prod.fst) t1 with ⟨r2, t2⟩
    have g2 : t2.inited = t1.inited := by
      have := injectAll_inited (t1.beans.map Prod.fst) t1
      rw [h2] at this
      exact this
    rw [h2] at h
    rcases r2 with u | e2 | m2 | _
    · dsimp only at h
      rcases h3 : initAll (t2.beans.map Prod.fst) { t2 with currentPhase := PostConstructPhase }
        with ⟨r3, t3⟩
      have g3 : t3.inited = t2.inited := by
        have := initAll_inited (t2.beans.map Prod.fst) { t2 with currentPhase := PostConstructPhase }
        rw [h3] at this
        exact this
      rw [h3] at h
      rcases r3 with u | e3 | m3 | _ <;> simp_all
    · simp_all
    · simp_all
    · simp_all
  · simp_all
  · simp_all
  · simp_all

/-- A successful `Init` ends with the flag set and the `Initialized`
phase. -/
theorem Init_ok_state (s0 s : CState) (h : Init s0 = (.ok (), s)) :
    s.inited = true ∧ s.currentPhase = InitializedPhase := by
  unfold Init at h
  by_cases hi : s0.inited
  · simp [hi] at h
  · rw [if_neg hi] at h
    unfold initPhases at h
    dsimp only at h
    rcases h1 : createAll (s0.beans.map Prod.fst) { s0 with currentPhase := InjectionPhase }
        with ⟨r1, t1⟩
    rw [h1] at h
    rcases r1 with u | e1 | m1 | _
    · dsimp only at h
      rcases h2 : injectAll (t1.beans.map Prod.fst) t1 with ⟨r2, t2⟩
      rw [h2] at h
      rcases r2 with u | e2 | m2 | _
      · dsimp only at h
        rcases h3 : initAll (t2.beans.map Prod.fst) { t2 with currentPhase := PostConstructPhase }
          with ⟨r3, t3⟩
        rw [h3] at h
        rcases r3 with u | e3 | m3 | _
        · dsimp only at h
          injection h with h1 h2
          subst h2
          exact ⟨rfl, rfl⟩
        · simp at h
        · simp at h
        · simp at h
      · simp_all
      · simp_all
      · simp_all
    · simp_all
    · simp_all
    · simp_all

/-- C1, counterexample.  The claim states that with bean A injecting
bean B by name and bean B injecting bean A by name (both Singletons),
`Init` fails with a CircularDependency error and the container does
not reach the Initialized state.  On the code the opposite happens at
this very input: `Init` creates all Singleton instances *before* any
injection, so both instances exist when the fields are wired and no
creation ever re-enters a bean mid-creation; `Init` returns nil and
the container ends in the `Initialized` phase with the flag set. -/
theorem c1_counterexample :
    (c1Res "a" "b").1 = .ok () ∧
    (c1Res "a" "b").2.currentPhase = InitializedPhase ∧
    (c1Res "a" "b").2.inited = true := by
  decide

/-- C1, amended.  For any two distinct non-empty bean names `a`, `b`,
the instance-backed Singleton by-name cycle initialises successfully:
`Init` returns nil, the container reaches `Initialized`, and the two
fields are wired to each other's instances (A's `FB` holds the pointer
registered under `b`, B's `FA` holds the pointer registered under
`a`).  The `circular dependency detected` error of
`createBeanInstance` concerns only re-entry into a bean whose creation
is still in progress, which cannot arise here. -/
theorem c1_cycle_init_succeeds (a b : String)
    (hab : a ≠ b) (ha : a ≠ "") (hb : b ≠ "") :
    (c1Res a b).1 = .ok () ∧
    (c1Res a b).2.currentPhase = InitializedPhase ∧
    (c1Res a b).2.inited = true ∧
    getField 0 "FB" (c1Res a b).2 = some (.vptr c1TyB 1) ∧
    getField 1 "FA" (c1Res a b).2 = some (.vptr c1TyA 0) := by
  have hba : b ≠ a := hab.symm
  simp [c1Res, c1Setup, c1Types, c1TyA, c1TyB, NewContainer, allocZero, Register, Init,
    initPhases, createAll, injectAll, initAll, createBeanInstance, injectBeanDependencies,
    injectDuringInit, injectFieldsInit, fieldsOf, structInfoOf, lookupA, updateA,
    lookupH, updateH, getField, setField, zeroObj, zeroVal, implementsI,
    isInitializingBean, initializeBean, runPostConstruct, runFactory,
    removeInitializing, GoVal.typeOf, GoType.isStruct, GoType.str, GoType.kindName,
    GoType.elem?, hab, hba, ha, hb, Singleton, Prototype, InjectionPhase,
    PostConstructPhase, InitializedPhase, NotInitializedPhase]

/-- C1, witness for the amended theorem at concrete names. -/
theorem c1_cycle_init_succeeds_witness :
    (c1Res "a" "b").1 = .ok () ∧
    (c1Res "a" "b").2.currentPhase = InitializedPhase ∧
    (c1Res "a" "b").2.inited = true ∧
    getField 0 "FB" (c1Res "a" "b").2 = some (.vptr c1TyB 1) ∧
    getField 1 "FA" (c1Res "a" "b").2 = some (.vptr c1TyA 0) :=
  c1_cycle_init_succeeds "a" "b" (by decide) (by decide) (by decide)

/-- C2 (code bug).  The claim — and the spec — say a field whose
injection marker carries an empty explicit name is resolved by the
field's declared capability type (`NoCandidate` / `AmbiguousCandidate`
on zero / several matches).  In the source, `Inject` and
`injectDuringInit` first skip every field whose `inject` tag reads
empty (`Tag.Get` cannot distinguish an empty marker from no marker),
so their `injectTag == ""` by-type branch — `findCandidateByType`,
which implements exactly the claimed semantics — is unreachable.  On
the concrete scenario (one registered bean implementing `IC`, a target
field `Dep IC` with an empty-name marker): `Inject` returns nil
*without filling the field*, while `findCandidateByType` itself would
have resolved to the unique candidate. -/
theorem c2_empty_marker_field_skipped :
    c2Setup.currentPhase = InitializedPhase ∧
    c2After.1 = .ok () ∧
    getField 1 "Dep" c2After.2 = some .vnil ∧
    (findCandidateByType 9 (.ifaceT "IC") c2Target.2).1 = .ok (.vptr c2SvcTy 0) := by
  decide

/-- C3, counterexample.  The claim says each retrieval of a Prototype
bean creates a brand-new instance, and two retrievals return distinct
instances.  A Prototype bean whose registered factory returns a cached
pointer (`FactorySpec.constV`) refutes this: two `GetSafe` calls after
`Init` return the *same* pointer (address 0). -/
theorem c3_counterexample :
    c3aSetup.currentPhase = InitializedPhase ∧
    (GetSafe 9 "p" c3aSetup).1 = .ok (.vptr c3PTy 0) ∧
    (GetSafe 9 "p" (GetSafe 9 "p" c3aSetup).2).1 = .ok (.vptr c3PTy 0) := by
  decide

/-- Finding a definition in a list extended by one Singleton-scoped
binding: it was either already bound, or it is the Singleton. -/
theorem lookup_append_singleton (k bn : String) (l : List (String × BeanDef))
    (bean : BeanDef) (d : BeanDef) (hS : bean.Scope = Singleton)
    (h : lookupA k (l ++ [(bn, bean)]) = some d) :
    lookupA k l = some d ∨ d.Scope = Singleton := by
  rw [lookupA_append] at h
  rcases hk : lookupA k l with _ | w
  · rw [hk] at h
    dsimp only at h
    by_cases hbk : bn = k
    · rw [if_pos hbk] at h
      injection h with h2
      right
      rw [← h2]
      exact hS
    · rw [if_neg hbk] at h
      exact Option.noConfusion h
  · rw [hk] at h
    dsimp only at h
    injection h with h2
    left
    exact congrArg some h2

/-- Successful `RegisterType` only ever inserts Singleton-scoped
definitions: any definition found in `beans` afterwards was either
already there or is the new Singleton. -/
theorem registerType_scope_singleton (ty : String) (v : GoVal) (s : CState)
    (k : String) (d : BeanDef)
    (h : lookupA k ((RegisterType ty v s).2).beans = some d) :
    lookupA k s.beans = some d ∨ d.Scope = Singleton := by
  unfold RegisterType at h
  by_cases h1 : s.inited
  · left; simpa [h1] using h
  · rw [if_neg (by simp [h1])] at h
    by_cases h2 : v = .vnil
    · left; simpa [h2] using h
    · rw [if_neg h2] at h
      rcases ht : v.typeOf with _ | t
      · rw [ht] at h
        left; exact h
      · rw [ht] at h
        dsimp only at h
        rcases hdup : lookupA (if ty = "" then shortNameOf t else ty ++ ":" ++ shortNameOf t)
            s.beans with _ | x
        · rw [hdup] at h
          dsimp only at h
          rcases hreg : lookupA ty s.typeRegistry with _ | m
          · rw [hreg] at h
            dsimp only at h
            exact lookup_append_singleton _ _ _ _ _ rfl h
          · rw [hreg] at h
            dsimp only at h
            exact lookup_append_singleton _ _ _ _ _ rfl h
        · rw [hdup] at h
          left; exact h

/-- Successful `RegisterTypeWithName` only ever inserts
Singleton-scoped definitions (also on its non-atomic error path). -/
theorem registerTypeWithName_scope_singleton (ty nm : String) (v : GoVal) (s : CState)
    (k : String) (d : BeanDef)
    (h : lookupA k ((RegisterTypeWithName ty nm v s).2).beans = some d) :
    lookupA k s.beans = some d ∨ d.Scope = Singleton := by
  unfold RegisterTypeWithName at h
  by_cases h1 : s.inited
  · left; simpa [h1] using h
  · rw [if_neg (by simp [h1])] at h
    by_cases h2 : v = .vnil
    · left; simpa [h2] using h
    · rw [if_neg h2] at h
      rcases ht : v.typeOf with _ | t0
      · rw [ht] at h
        left; exact h
      · rw [ht] at h
        dsimp only at h
        rcases hdup : lookupA (ty ++ ":" ++ nm) s.beans with _ | x
        · rw [hdup] at h
          dsimp only at h
          rcases hreg : lookupA ty s.typeRegistry with _ | m
          · rw [hreg] at h
            dsimp only at h
            rw [lookupA_append, hreg] at h
            dsimp only at h
            rw [if_pos rfl] at h
            simp only [lookupA] at h
            exact lookup_append_singleton _ _ _ _ _ rfl h
          · rw [hreg] at h
            dsimp only at h
            rw [hreg] at h
            dsimp only at h
            rcases hm : lookupA nm m with _ | y
            · rw [hm] at h
              dsimp only at h
              exact lookup_append_singleton _ _ _ _ _ rfl h
            · rw [hm] at h
              dsimp only at h
              exact lookup_append_singleton _ _ _ _ _ rfl h
        · rw [hdup] at h
          left; exact h

/-- C3, amended.  The create→inject→post-construct-per-retrieval,
never-stored, distinct-instances behaviour holds for the by-name
retrieval path of plain (non-factory) Prototype beans: two `GetSafe`
calls return pointers to two *fresh* addresses (2 and 3), each with
the `svc` Singleton injected into `Dep` and the `PostConstruct` marker
written by the hook, and the bean registry is bit-for-bit unchanged by
both calls.  Prototype distinctness for factory beans holds only as
far as the factory constructs fresh instances (see the
counterexample).  Retrieval by category can never serve a Prototype
bean at all: both by-category registration operations insert
exclusively Singleton-scoped definitions, so every bean reachable
through the type registry is a Singleton. -/
theorem c3_prototype_semantics :
    (c3Get1.1 = .ok (.vptr c3ProtoTy 2) ∧
     c3Get2.1 = .ok (.vptr c3ProtoTy 3) ∧
     getField 2 "Dep" c3Get1.2 = some (.vptr c3SvcTy 0) ∧
     getField 2 "Mark" c3Get1.2 = some markerVal ∧
     getField 3 "Dep" c3Get2.2 = some (.vptr c3SvcTy 0) ∧
     getField 3 "Mark" c3Get2.2 = some markerVal ∧
     c3Get1.2.beans = c3Setup.beans ∧
     c3Get2.2.beans = c3Setup.beans) ∧
    (∀ (ty : String) (v : GoVal) (s : CState) (k : String) (d : BeanDef),
      lookupA k ((RegisterType ty v s).2).beans = some d →
      lookupA k s.beans = some d ∨ d.Scope = Singleton) ∧
    (∀ (ty nm : String) (v : GoVal) (s : CState) (k : String) (d : BeanDef),
      lookupA k ((RegisterTypeWithName ty nm v s).2).beans = some d →
      lookupA k s.beans = some d ∨ d.Scope = Singleton) :=
  ⟨by decide,
   fun ty v s k d h => registerType_scope_singleton ty v s k d h,
   fun ty nm v s k d h => registerTypeWithName_scope_singleton ty nm v s k d h⟩

/-- C3, witness for the quantified conjuncts at concrete inputs. -/
theorem c3_prototype_semantics_witness :
    lookupA "FooImpl" (NewContainer [] []).beans = some c3WitDef ∨
      c3WitDef.Scope = Singleton :=
  c3_prototype_semantics.2.1 "" c6inst (NewContainer [] []) "FooImpl" c3WitDef (by decide)

/-- `GetSafe` in the `Initialized` phase on a Singleton returns the
stored instance and leaves the container untouched — hence any two
consecutive calls return the identical reference. -/
theorem getSafe_singleton_state (fuel : Nat) (n : String) (s : CState) (d : BeanDef)
    (hph : s.currentPhase = InitializedPhase) (hb : lookupA n s.beans = some d)
    (hsc : d.Scope = Singleton) :
    GetSafe (fuel + 1) n s = (.ok d.Instance, s) := by
  simp [GetSafe, exec, hb, hph, hsc, NotInitializedPhase, InjectionPhase,
    PostConstructPhase, InitializedPhase, Singleton]

/-- C4.  After a successful `Init`, retrieval of any Singleton bean
returns the stored instance without modifying the container, so any
two `Get`/`GetSafe` calls return the same (reference-equal) instance;
and in the product scenario the repository reference injected into
`productService` is the very pointer returned by
`Get("productRepository")` (address 0). -/
theorem c4_singleton_identity :
    (∀ (s0 s : CState) (n : String) (d : BeanDef) (fuel : Nat),
        Init s0 = (.ok (), s) → lookupA n s.beans = some d → d.Scope = Singleton →
        GetSafe (fuel + 1) n s = (.ok d.Instance, s)) ∧
    (Get 9 "productService" c4Setup).1 = .ok (.vptr c4SvcTy 1) ∧
    (Get 9 "productRepository" c4Setup).1 = .ok (.vptr c4RepoTy 0) ∧
    getField 1 "Repo" c4Setup = some (.vptr c4RepoTy 0) := by
  refine ⟨?_, by decide, by decide, by decide⟩
  intro s0 s n d fuel hInit hb hsc
  exact getSafe_singleton_state fuel n s d (Init_ok_state s0 s hInit).2 hb hsc

/-- C4, witness: the general Singleton-identity statement applied to
the product scenario. -/
theorem c4_singleton_identity_witness :
    GetSafe 9 "productService" c4Setup = (.ok c4SvcDef.Instance, c4Setup) :=
  c4_singleton_identity.1 c4Pre c4Setup "productService" c4SvcDef 8 (by decide)
    (by decide) (by decide)

/-- C5, counterexample.  The claim says that before `Init` *every*
retrieval fails with the container-not-ready error, registered or not.
In the source, `GetSafe` checks existence *first*: an unregistered
name fails with the bean-not-found error even in the `NotInitialized`
phase. -/
theorem c5_counterexample :
    (NewContainer [] []).currentPhase = NotInitializedPhase ∧
    (GetSafe 9 "x" (NewContainer [] [])).1 = .err "bean with name x not found" ∧
    (GetSafe 9 "x" (NewContainer [] [])).1 ≠
      .err "container not initialized, call Init() first" := by
  decide

/-- C5, amended.  In the `NotInitialized` phase, retrieval of a
*registered* name fails with the container-not-ready error, and
retrieval of an unregistered name fails with the bean-not-found error
(in both cases the container is left unchanged). -/
theorem c5_not_initialized_retrieval :
    (∀ (s : CState) (n : String) (d : BeanDef) (fuel : Nat),
        s.currentPhase = NotInitializedPhase → lookupA n s.beans = some d →
        GetSafe (fuel + 1) n s = (.err "container not initialized, call Init() first", s)) ∧
    (∀ (s : CState) (n : String) (fuel : Nat),
        lookupA n s.beans = none →
        GetSafe (fuel + 1) n s = (.err ("bean with name " ++ n ++ " not found"), s)) := by
  constructor
  · intro s n d fuel hph hb
    simp [GetSafe, exec, hb, hph, NotInitializedPhase]
  · intro s n fuel hb
    simp [GetSafe, exec, hb]

/-- C5, witness: both amended cases at concrete inputs (the cycle
scenario before `Init`, a registered and an unregistered name). -/
theorem c5_not_initialized_retrieval_witness :
    GetSafe 9 "a" (c1Setup "a" "b") =
      (.err "container not initialized, call Init() first", c1Setup "a" "b") ∧
    GetSafe 9 "zz" (c1Setup "a" "b") =
      (.err "bean with name zz not found", c1Setup "a" "b") :=
  ⟨c5_not_initialized_retrieval.1 (c1Setup "a" "b") "a" c5ADef 8 (by decide) (by decide),
   c5_not_initialized_retrieval.2 (c1Setup "a" "b") "zz" 8 (by decide)⟩

/-- C6, counterexample.  The claim says the derived name is
`category:ShortTypeName` for *every* category string.  For the empty
category, the source skips the prefixing: `RegisterType("", &FooImpl{})`
registers under plain `FooImpl`, not `:FooImpl`. -/
theorem c6_counterexample :
    (RegisterType "" c6inst (NewContainer [] [])).1 = .ok () ∧
    lookupA ":FooImpl" (RegisterType "" c6inst (NewContainer [] [])).2.beans = none ∧
    lookupA "FooImpl" (RegisterType "" c6inst (NewContainer [] [])).2.beans =
      some c3WitDef := by
  decide

/-- C6, amended.  `RegisterType` derives the bean name from the
instance's short type name — package path stripped and the pointer
dereferenced — prefixed by `category + ":"` exactly when the category
is non-empty (for the empty category the name is the bare short name);
in both cases the definition is also indexed in the type registry
under `(category, ShortTypeName)`, whatever the registry already held
for that category (the write is Go's overwriting map assignment).
Stated for every non-nil instance: `t` is the instance's dynamic type,
so the short name is `shortNameOf t` and the recorded type is `t`
itself. -/
theorem c6_register_type_naming :
    (∀ (ty : String) (v : GoVal) (t : GoType) (s : CState),
      s.inited = false → ty ≠ "" → v.typeOf = some t →
      lookupA (ty ++ ":" ++ shortNameOf t) s.beans = none →
      (RegisterType ty v s).1 = .ok () ∧
      lookupA (ty ++ ":" ++ shortNameOf t) ((RegisterType ty v s).2).beans =
        some { Name := ty ++ ":" ++ shortNameOf t, TypeName := ty,
               Ty := some t, Instance := v, Scope := Singleton,
               Factory := none, injected := false, inited := false } ∧
      (∃ m2, lookupA ty ((RegisterType ty v s).2).typeRegistry = some m2 ∧
        lookupA (shortNameOf t) m2 = some (ty ++ ":" ++ shortNameOf t))) ∧
    (∀ (v : GoVal) (t : GoType) (s : CState),
      s.inited = false → v.typeOf = some t →
      lookupA (shortNameOf t) s.beans = none →
      (RegisterType "" v s).1 = .ok () ∧
      lookupA (shortNameOf t) ((RegisterType "" v s).2).beans =
        some { Name := shortNameOf t, TypeName := "", Ty := some t,
               Instance := v, Scope := Singleton, Factory := none,
               injected := false, inited := false } ∧
      (∃ m2, lookupA "" ((RegisterType "" v s).2).typeRegistry = some m2 ∧
        lookupA (shortNameOf t) m2 = some (shortNameOf t))) := by
  constructor
  · intro ty v t s hinit hty htv hdup
    unfold RegisterType
    have hvn : ¬ v = GoVal.vnil := by
      intro h
      rw [h] at htv
      simp [GoVal.typeOf] at htv
    rw [if_neg (by simp [hinit]), if_neg hvn, htv]
    try dsimp only
    rw [if_neg hty, hdup]
    try dsimp only
    rcases hreg : lookupA ty s.typeRegistry with _ | m0
    · try rw [hreg]
      try dsimp only
      refine ⟨rfl, ?_, ?_⟩
      · rw [lookupA_append, hdup]
        try dsimp only
        rw [if_pos rfl]
      · refine ⟨insertA (shortNameOf t) (ty ++ ":" ++ shortNameOf t) [], ?_,
          lookupA_insertA _ _ _⟩
        rw [lookupA_updateA, lookupA_append]
        try rw [hreg]
        try dsimp only
        rw [if_pos rfl]
        rfl
    · try rw [hreg]
      try dsimp only
      refine ⟨rfl, ?_, ?_⟩
      · rw [lookupA_append, hdup]
        try dsimp only
        rw [if_pos rfl]
      · refine ⟨insertA (shortNameOf t) (ty ++ ":" ++ shortNameOf t) m0, ?_,
          lookupA_insertA _ _ _⟩
        rw [lookupA_updateA]
        try rw [hreg]
        rfl
  · intro v t s hinit htv hdup
    unfold RegisterType
    have hvn : ¬ v = GoVal.vnil := by
      intro h
      rw [h] at htv
      simp [GoVal.typeOf] at htv
    rw [if_neg (by simp [hinit]), if_neg hvn, htv]
    try dsimp only
    simp only [if_true]
    rw [hdup]
    try dsimp only
    rcases hreg : lookupA "" s.typeRegistry with _ | m0
    · try rw [hreg]
      try dsimp only
      refine ⟨rfl, ?_, ?_⟩
      · rw [lookupA_append, hdup]
        try dsimp only
        rw [if_pos rfl]
      · refine ⟨insertA (shortNameOf t) (shortNameOf t) [], ?_,
          lookupA_insertA _ _ _⟩
        rw [lookupA_updateA, lookupA_append]
        try rw [hreg]
        try dsimp only
        rw [if_pos rfl]
        rfl
    · try rw [hreg]
      try dsimp only
      refine ⟨rfl, ?_, ?_⟩
      · rw [lookupA_append, hdup]
        try dsimp only
        rw [if_pos rfl]
      · refine ⟨insertA (shortNameOf t) (shortNameOf t) m0, ?_,
          lookupA_insertA _ _ _⟩
        rw [lookupA_updateA]
        try rw [hreg]
        rfl

/-- C6, witness: the amended derivation at concrete inputs — category
`"service"` with the pointer instance `&FooImpl{}`, and the empty
category with a non-pointer `FooImpl` value. -/
theorem c6_register_type_naming_witness :
    ((RegisterType "service" c6inst (NewContainer [] [])).1 = .ok () ∧
     lookupA ("service" ++ ":" ++ shortNameOf (.ptrTo c6FooTy))
        ((RegisterType "service" c6inst (NewContainer [] [])).2).beans =
       some { Name := "service" ++ ":" ++ shortNameOf (.ptrTo c6FooTy),
              TypeName := "service", Ty := some (.ptrTo c6FooTy), Instance := c6inst,
              Scope := Singleton, Factory := none, injected := false, inited := false } ∧
     (∃ m2, lookupA "service"
          ((RegisterType "service" c6inst (NewContainer [] [])).2).typeRegistry = some m2 ∧
        lookupA (shortNameOf (.ptrTo c6FooTy)) m2 =
          some ("service" ++ ":" ++ shortNameOf (.ptrTo c6FooTy)))) ∧
    (RegisterType "" (GoVal.vval c6FooTy) (NewContainer [] [])).1 = .ok () :=
  ⟨c6_register_type_naming.1 "service" c6inst (.ptrTo c6FooTy) (NewContainer [] [])
      (by decide) (by decide) (by decide) (by decide),
   (c6_register_type_naming.2 (GoVal.vval c6FooTy) c6FooTy (NewContainer [] [])
      (by decide) (by decide) (by decide)).1⟩

/-- C7.  After a successful `Init` every registration operation fails
with the already-initialized error, for every argument tuple, and
leaves the container unchanged: each of the four operations tests the
`initialized` flag before anything else. -/
theorem c7_register_after_init :
    ∀ (s0 s : CState), Init s0 = (.ok (), s) →
      ∀ (n : String) (v : GoVal) (sc : Nat) (ty nm : String) (fac : Option FactorySpec),
        Register n v sc s =
          (.err "cannot register beans after container initialization", s) ∧
        RegisterType ty v s =
          (.err "cannot register beans after container initialization", s) ∧
        RegisterTypeWithName ty nm v s =
          (.err "cannot register beans after container initialization", s) ∧
        RegisterFactory n sc fac s =
          (.err "cannot register beans after container initialization", s) := by
  intro s0 s hInit n v sc ty nm fac
  have hi : s.inited = true := (Init_ok_state s0 s hInit).1
  exact ⟨by simp [Register, hi], by simp [RegisterType, hi],
    by simp [RegisterTypeWithName, hi], by simp [RegisterFactory, hi]⟩

/-- C7, witness: the lockout after initialising an empty container. -/
theorem c7_register_after_init_witness :
    Register "x" c6inst Singleton (Init (NewContainer [] [])).2 =
      (.err "cannot register beans after container initialization",
       (Init (NewContainer [] [])).2) ∧
    RegisterType "t" c6inst (Init (NewContainer [] [])).2 =
      (.err "cannot register beans after container initialization",
       (Init (NewContainer [] [])).2) ∧
    RegisterTypeWithName "t" "n" c6inst (Init (NewContainer [] [])).2 =
      (.err "cannot register beans after container initialization",
       (Init (NewContainer [] [])).2) ∧
    RegisterFactory "x" Singleton none (Init (NewContainer [] [])).2 =
      (.err "cannot register beans after container initialization",
       (Init (NewContainer [] [])).2) :=
  c7_register_after_init (NewContainer [] []) (Init (NewContainer [] [])).2 (by decide)
    "x" c6inst Singleton "t" "n" none

/-- C8, counterexample.  `RegisterTypeWithName("", "FooImpl", &BarImpl{})`
after `RegisterType("", &FooImpl{})` finds the derived bean name
`:FooImpl` free in `beans`, inserts the definition, and only then hits
the `("", "FooImpl")` duplicate in the type registry: it returns an
error *and* leaves the new definition behind in `beans`. -/
theorem c8_counterexample :
    c8res.1 = .err "type  already has a bean with name FooImpl" ∧
    lookupA ":FooImpl" c8s1.beans = none ∧
    lookupA ":FooImpl" c8res.2.beans ≠ none ∧
    c8res.2.beans ≠ c8s1.beans := by
  decide

/-- C8, amended.  `Register`, `RegisterType` and `RegisterFactory` are
atomic on failure (every error path returns before any mutation);
`RegisterTypeWithName` keeps the type registry intact on failure but,
on the duplicate-`(category, name)` error path, may leave the freshly
inserted definition in the bean registry. -/
theorem c8_registration_atomicity :
    (∀ (n : String) (v : GoVal) (sc : Nat) (s : CState) (e : String),
        (Register n v sc s).1 = .err e → (Register n v sc s).2 = s) ∧
    (∀ (ty : String) (v : GoVal) (s : CState) (e : String),
        (RegisterType ty v s).1 = .err e → (RegisterType ty v s).2 = s) ∧
    (∀ (n : String) (sc : Nat) (fac : Option FactorySpec) (s : CState) (e : String),
        (RegisterFactory n sc fac s).1 = .err e → (RegisterFactory n sc fac s).2 = s) ∧
    (∀ (ty nm : String) (v : GoVal) (s : CState) (e : String),
        (RegisterTypeWithName ty nm v s).1 = .err e →
        ((RegisterTypeWithName ty nm v s).2).typeRegistry = s.typeRegistry ∧
        (((RegisterTypeWithName ty nm v s).2).beans = s.beans ∨
          ((RegisterTypeWithName ty nm v s).2).beans =
            s.beans ++ [(ty ++ ":" ++ nm, mkTypeWithNameDef ty nm v)])) := by
  refine ⟨?_, ?_, ?_, ?_⟩
  · intro n v sc s e h
    unfold Register at h ⊢
    by_cases h1 : s.inited
    · simp [h1]
    · by_cases h2 : v = .vnil
      · simp [h1, h2]
      · rcases hb : lookupA n s.beans with _ | x
        · rw [if_neg (by simp [h1]), if_neg h2, hb] at h
          simp at h
        · simp [h1, h2, hb]
  · intro ty v s e h
    unfold RegisterType at h ⊢
    by_cases h1 : s.inited
    · simp [h1]
    · by_cases h2 : v = .vnil
      · simp [h1, h2]
      · rcases ht : v.typeOf with _ | t
        · rw [if_neg (by simp [h1]), if_neg h2, ht] at h
          simp at h
        · rw [if_neg (by simp [h1]), if_neg h2, ht] at h
          dsimp only at h
          rcases hdup : lookupA (if ty = "" then shortNameOf t else ty ++ ":" ++ shortNameOf t)
              s.beans with _ | x
          · rw [hdup] at h
            dsimp only at h
            simp at h
          · simp [h1, h2, ht, hdup]
  · intro n sc fac s e h
    unfold RegisterFactory at h ⊢
    by_cases h1 : s.inited
    · simp [h1]
    · rcases fac with _ | fs
      · simp [h1]
      · rcases hb : lookupA n s.beans with _ | x
        · rw [if_neg (by simp [h1])] at h
          dsimp only at h
          rw [hb] at h
          simp at h
        · simp [h1, hb]
  · intro ty nm v s e h
    unfold RegisterTypeWithName at h ⊢
    by_cases h1 : s.inited
    · simp [h1]
    · by_cases h2 : v = .vnil
      · simp [h1, h2]
      · rcases ht : v.typeOf with _ | t0
        · rw [if_neg (by simp [h1]), if_neg h2, ht] at h
          simp at h
        · rw [if_neg (by simp [h1]), if_neg h2, ht] at h
          dsimp only at h
          rcases hdup : lookupA (ty ++ ":" ++ nm) s.beans with _ | x
          · rw [hdup] at h
            dsimp only at h
            rcases hreg : lookupA ty s.typeRegistry with _ | m
            · rw [hreg] at h
              dsimp only at h
              rw [lookupA_append, hreg] at h
              dsimp only at h
              rw [if_pos rfl] at h
              simp only [lookupA] at h
              simp at h
            · rw [hreg] at h
              dsimp only at h
              rw [hreg] at h
              dsimp only at h
              rcases hm : lookupA nm m with _ | y
              · rw [hm] at h
                simp at h
              · constructor
                · simp [h1, h2, ht, hdup, hreg, hm]
                · right
                  rcases t0 with te | sn | ii | bn <;>
                    simp [mkTypeWithNameDef, h1, h2, ht, hdup, hreg, hm]
          · constructor
            · simp [h1, h2, ht, hdup]
            · left
              simp [h1, h2, ht, hdup]

/-- C8, witness: atomicity of a failing `Register` (nil instance) and
the permitted non-atomic outcome of the scenario's
`RegisterTypeWithName` failure. -/
theorem c8_registration_atomicity_witness :
    (Register "x" GoVal.vnil Singleton (NewContainer [] [])).2 = NewContainer [] [] ∧
    (c8res.2.typeRegistry = c8s1.typeRegistry ∧
      (c8res.2.beans = c8s1.beans ∨
        c8res.2.beans = c8s1.beans ++ [("" ++ ":" ++ "FooImpl",
          mkTypeWithNameDef "" "FooImpl" (.vptr (.structT "pkg.BarImpl") 1))])) :=
  ⟨c8_registration_atomicity.1 "x" GoVal.vnil Singleton (NewContainer [] [])
      "cannot register nil instance" (by decide),
   c8_registration_atomicity.2.2.2 "" "FooImpl" (.vptr (.structT "pkg.BarImpl") 1) c8s1
      "type  already has a bean with name FooImpl" (by decide)⟩

/-- C9.  If a first `Init` attempt fails, the container is not marked
initialized: the flag is still clear, a registration with a fresh name
and non-nil instance still succeeds, and a renewed `Init` is not
short-circuited by the already-initialized guard (it runs the phases
again).  The flag and the `Initialized` phase are written only at the
very end of a fully successful `initPhases`. -/
theorem c9_failed_init_not_marked :
    ∀ (s0 s : CState) (e : String), s0.inited = false → Init s0 = (.err e, s) →
      s.inited = false ∧
      Init s = initPhases s ∧
      (∀ (n : String) (v : GoVal) (sc : Nat), lookupA n s.beans = none → v ≠ .vnil →
        (Register n v sc s).1 = .ok ()) := by
  intro s0 s e h0 h
  have hs : s.inited = false := by
    unfold Init at h
    rw [if_neg (by simp [h0])] at h
    have := initPhases_err_inited s0 e s h
    rw [this, h0]
  refine ⟨hs, by simp [Init, hs], ?_⟩
  intro n v sc hn hv
  simp [Register, hs, hn, hv]

/-- C9, witness: the missing-dependency scenario; `Init` fails, the
flag is clear, and a fresh registration still succeeds. -/
theorem c9_failed_init_not_marked_witness :
    c9Res.2.inited = false ∧
    Init c9Res.2 = initPhases c9Res.2 ∧
    (Register "fresh" c6inst Singleton c9Res.2).1 = .ok () := by
  have h := c9_failed_init_not_marked c9Pre c9Res.2
    "error injecting dependencies for bean w: bean with name missing not found"
    (by decide) (by decide)
  exact ⟨h.1, h.2.1, h.2.2 "fresh" c6inst Singleton (by decide) (by decide)⟩

/-- The field loop skips every field whose `inject` tag is empty,
returning a nil error without touching the state (given fuel at least
the number of fields). -/
theorem injectFields_skip_all (tgt : Option Nat) (flds : List GoField) :
    ∀ (fuel : Nat) (s : CState), (∀ f ∈ flds, f.injectTag = "") → flds.length ≤ fuel →
      exec (fuel + 1) (.rInjectFields tgt flds) s = (.ok .vnil, s) := by
  induction flds with
  | nil =>
    intro fuel s _ _
    simp [exec]
  | cons f rest ih =>
    intro fuel s hall hlen
    have hf : f.injectTag = "" := hall f (by simp)
    cases fuel with
    | zero => simp at hlen
    | succ fuel2 =>
      have hstep : exec (fuel2 + 1 + 1) (.rInjectFields tgt (f :: rest)) s
          = exec (fuel2 + 1) (.rInjectFields tgt rest) s := by
        simp [exec, hf]
      rw [hstep]
      refine ih fuel2 s (fun g hg => hall g (List.mem_cons_of_mem f hg)) ?_
      simp only [List.length_cons] at hlen
      omega

/-- `runPostConstruct` returns a normal Go result (nil or an error). -/
theorem runPostConstruct_shape (v : GoVal) (s : CState) :
    (runPostConstruct v s).1 = .ok () ∨ ∃ m, (runPostConstruct v s).1 = .err m := by
  unfold runPostConstruct
  rcases v with _ | ⟨t, a⟩ | t
  · left; rfl
  · rcases t with te | n | i | b
    · left; rfl
    · rcases hh : lookupA n s.hooks with _ | hk
      · simp [hh]
      · rcases hk with f | m | _
        · simp [hh]
        · right
          exact ⟨m, by simp [hh]⟩
        · simp [hh]
    · left; rfl
    · left; rfl
  · left; rfl

/-- `Inject` on a pointer to a struct whose fields carry no injection
markers: a nil error without state change; on a pointer to a
non-struct: an error without state change. -/
theorem inject_fresh_all_empty (te : GoType) (A k : Nat) (s2 : CState)
    (hall : ∀ f ∈ fieldsOf s2 te, f.injectTag = "") (hk : (fieldsOf s2 te).length ≤ k) :
    exec (k + 2) (.rInject (.vptr te A)) s2 = (.ok .vnil, s2) ∨
    ∃ m, exec (k + 2) (.rInject (.vptr te A)) s2 = (.err m, s2) := by
  by_cases hst : te.isStruct
  · left
    have hstep : exec (k + 1 + 1) (.rInject (.vptr te A)) s2
        = exec (k + 1) (.rInjectFields (some A) (fieldsOf s2 te)) s2 := by
      simp [exec, hst]
    rw [show k + 2 = k + 1 + 1 from rfl, hstep]
    exact injectFields_skip_all (some A) (fieldsOf s2 te) k s2 hall hk
  · right
    exact ⟨"can only inject into struct, got " ++ te.kindName, by simp [exec, hst]⟩

/-- `createPrototypeInstance` terminates normally whenever the
instance is created fresh — by a fresh-allocating factory or by
`reflect.New` on a recorded pointer type — and the created type's
fields carry no injection markers: creation succeeds, injection skips
every field (or rejects a non-struct with an error), and the
`PostConstruct` hook returns normally. -/
theorem proto_exec_normal (d : BeanDef) (te : GoType) (k : Nat) (s : CState)
    (hcr : d.Factory = some (.freshOf te) ∨ (d.Factory = none ∧ d.Ty = some (.ptrTo te)))
    (hall : ∀ f ∈ fieldsOf s te, f.injectTag = "") (hk : (fieldsOf s te).length ≤ k) :
    ((exec (k + 3) (.rProto d) s).1).isNormal = true := by
  have hall2 : ∀ f ∈ fieldsOf (allocZero te s).2 te, f.injectTag = "" := hall
  have hk2 : (fieldsOf (allocZero te s).2 te).length ≤ k := hk
  have hfst : (allocZero te s).1 = GoVal.vptr te s.nextAddr := rfl
  obtain ⟨K, hK⟩ : ∃ K, K = k + 2 := ⟨k + 2, rfl⟩
  rw [show k + 3 = K + 1 by omega]
  rcases hcr with hF | ⟨hF, hTy⟩
  · simp only [exec, hF, runFactory]
    rw [hfst, hK]
    rcases inject_fresh_all_empty te s.nextAddr k (allocZero te s).2 hall2 hk2
        with hinj | ⟨m, hinj⟩ <;> rw [hinj] <;> dsimp only
    · by_cases hib : isInitializingBean (allocZero te s).2 (.vptr te s.nextAddr)
      · simp only [hib, if_true]
        rcases hpc : runPostConstruct (.vptr te s.nextAddr) (allocZero te s).2 with ⟨r4, s4⟩
        have hsh := runPostConstruct_shape (.vptr te s.nextAddr) (allocZero te s).2
        rw [hpc] at hsh
        dsimp only at hsh
        rcases hsh with h4 | ⟨m4, h4⟩ <;> subst h4 <;>
          simp [Outcome.castFail, Outcome.isNormal]
      · simp [hib, Outcome.isNormal]
    · simp [Outcome.isNormal]
  · simp only [exec, hF, hTy, GoType.elem?]
    rw [hfst, hK]
    rcases inject_fresh_all_empty te s.nextAddr k (allocZero te s).2 hall2 hk2
        with hinj | ⟨m, hinj⟩ <;> rw [hinj] <;> dsimp only
    · by_cases hib : isInitializingBean (allocZero te s).2 (.vptr te s.nextAddr)
      · simp only [hib, if_true]
        rcases hpc : runPostConstruct (.vptr te s.nextAddr) (allocZero te s).2 with ⟨r4, s4⟩
        have hsh := runPostConstruct_shape (.vptr te s.nextAddr) (allocZero te s).2
        rw [hpc] at hsh
        dsimp only at hsh
        rcases hsh with h4 | ⟨m4, h4⟩ <;> subst h4 <;>
          simp [Outcome.castFail, Outcome.isNormal]
      · simp [hib, Outcome.isNormal]
    · simp [Outcome.isNormal]

/-- C10, counterexample.  The claim says `GetSafe` is total in every
state, "in particular for Prototype beans regardless of whether they
were registered with a factory, a pointer instance, or a non-pointer
instance".  A Prototype registered with a *non-pointer* struct value
refutes it: after `Init`, `GetSafe("p")` reaches
`reflect.New(bean.Type.Elem())` with a struct (non-pointer) recorded
type, and `Elem()` panics — the call aborts abnormally instead of
returning an (instance, error) pair. -/
theorem c10_counterexample :
    c10Setup.currentPhase = InitializedPhase ∧
    lookupA "p" c10Setup.beans =
      some { Name := "p", TypeName := "", Ty := some c10PTy, Instance := .vval c10PTy,
             Scope := Prototype, Factory := none, injected := false, inited := false } ∧
    GetSafe 9 "p" c10Setup = (.panicked "reflect: Elem of invalid type", c10Setup) ∧
    (GetSafe 9 "p" c10Setup).1.isNormal = false := by
  decide

/-- C10, amended.  `GetSafe` returns a normal (instance, error) result
in the `NotInitialized` phase, in any unknown phase, for Singletons in
the `PostConstruct`/`Initialized` phases, for Prototypes backed by a
failing factory, and for Prototypes created fresh (fresh-allocating
factory, or plain bean with a recorded pointer type) whose type has no
injection-marked fields; the abnormal abort is confined to cases such
as the non-pointer Prototype of the counterexample (and to
resource-exhaustion of deep prototype recursion, modelled as fuel). -/
theorem c10_getsafe_totality :
    (∀ (s : CState) (n : String) (fuel : Nat), s.currentPhase = NotInitializedPhase →
      ((GetSafe (fuel + 1) n s).1).isNormal = true) ∧
    (∀ (s : CState) (n : String) (fuel : Nat),
      s.currentPhase ≠ NotInitializedPhase → s.currentPhase ≠ InjectionPhase →
      s.currentPhase ≠ PostConstructPhase → s.currentPhase ≠ InitializedPhase →
      ((GetSafe (fuel + 1) n s).1).isNormal = true) ∧
    (∀ (s : CState) (n : String) (d : BeanDef) (fuel : Nat),
      (s.currentPhase = PostConstructPhase ∨ s.currentPhase = InitializedPhase) →
      lookupA n s.beans = some d → d.Scope = Singleton →
      GetSafe (fuel + 1) n s = (.ok d.Instance, s)) ∧
    (∀ (s : CState) (n : String) (d : BeanDef) (m : String) (fuel : Nat),
      (s.currentPhase = PostConstructPhase ∨ s.currentPhase = InitializedPhase) →
      lookupA n s.beans = some d → d.Scope = Prototype →
      d.Factory = some (.ffail m) →
      GetSafe (fuel + 2) n s = (.err m, s)) ∧
    (∀ (s : CState) (n : String) (d : BeanDef) (te : GoType) (k : Nat),
      (s.currentPhase = PostConstructPhase ∨ s.currentPhase = InitializedPhase) →
      lookupA n s.beans = some d → d.Scope = Prototype →
      (d.Factory = some (.freshOf te) ∨ (d.Factory = none ∧ d.Ty = some (.ptrTo te))) →
      (∀ f ∈ fieldsOf s te, f.injectTag = "") → (fieldsOf s te).length ≤ k →
      ((GetSafe (k + 4) n s).1).isNormal = true) := by
  refine ⟨?_, ?_, ?_, ?_, ?_⟩
  · intro s n fuel hph
    rcases hb : lookupA n s.beans with _ | d <;>
      simp [GetSafe, exec, hb, hph, NotInitializedPhase, Outcome.isNormal]
  · intro s n fuel h0 h1 h2 h3
    simp only [NotInitializedPhase, InjectionPhase, PostConstructPhase,
      InitializedPhase] at h0 h1 h2 h3
    rcases hb : lookupA n s.beans with _ | d <;>
      simp [GetSafe, exec, hb, h0, h1, h2, h3, NotInitializedPhase, InjectionPhase,
        PostConstructPhase, InitializedPhase, Outcome.isNormal]
  · intro s n d fuel hph hb hsc
    rcases hph with hph | hph <;>
      simp [GetSafe, exec, hb, hph, hsc, NotInitializedPhase, InjectionPhase,
        PostConstructPhase, InitializedPhase, Singleton]
  · intro s n d m fuel hph hb hsc hfac
    rcases hph with hph | hph <;>
      simp [GetSafe, exec, hb, hph, hsc, hfac, runFactory, NotInitializedPhase,
        InjectionPhase, PostConstructPhase, InitializedPhase, Singleton, Prototype]
  · intro s n d te k hph hb hsc hcr hall hk
    have hstep : GetSafe (k + 4) n s = exec (k + 3) (.rProto d) s := by
      rcases hph with hph | hph <;>
        simp [GetSafe, exec, hb, hph, hsc, NotInitializedPhase, InjectionPhase,
          PostConstructPhase, InitializedPhase, Singleton, Prototype]
    rw [hstep]
    exact proto_exec_normal d te k s hcr hall hk

/-- C10, witness: the amended cases at concrete inputs — a fresh
container, the product scenario Singleton, the failing-factory
Prototype, and the dependency-free pointer Prototype. -/
theorem c10_getsafe_totality_witness :
    ((GetSafe 9 "x" (NewContainer [] [])).1).isNormal = true ∧
    GetSafe 9 "productService" c4Setup = (.ok c4SvcDef.Instance, c4Setup) ∧
    GetSafe 9 "pf" c10fSetup = (.err "boom", c10fSetup) ∧
    ((GetSafe 4 "q" c10eSetup).1).isNormal = true :=
  ⟨c10_getsafe_totality.1 (NewContainer [] []) "x" 8 (by decide),
   c10_getsafe_totality.2.2.1 c4Setup "productService" c4SvcDef 8 (by decide) (by decide)
     (by decide),
   c10_getsafe_totality.2.2.2.1 c10fSetup "pf" c10fDef "boom" 7 (by decide) (by decide)
     (by decide) (by decide),
   c10_getsafe_totality.2.2.2.2 c10eSetup "q" c10eDef c10QTy 0 (by decide) (by decide)
     (by decide) (by decide) (by decide) (by decide)⟩

end Ioc
